import Mathlib

/-!
Verification development for the Gravity Guy core simulation
(`src/game/config.py`, `src/game/level.py`, `src/game/player.py`,
`src/env/gg_env_v2.py`, `src/env/observation_v2.py`).

Embedding conventions:
* Python floats are modelled exactly over `ℚ`; every arithmetic step of the
  source is mirrored term by term, so all stated equalities are exact.
* `int(x)` (Python truncation toward zero) is `pyInt`.
* `pygame.Rect` stores integers; its derived edges and `colliderect`
  follow the pygame semantics (strict overlap, `centery = y + h / 2`).
* External effects are gathered in one explicit parameter `ExternalImpl`:
  `math.sin` (an arbitrary function `ℚ → ℚ`), the seeded stream of
  `random.Random` (an arbitrary function of seed and draw index, so that
  theorems quantify over every possible draw sequence), the exact
  rect-triangle test `rect_intersects_triangle_strict` (imported by the
  environment from `src/game/level.py` but not present in the sources we
  have), and the `SPIKE_*` configuration constants (imported by
  `src/game/level.py` from `src/game/config.py` but likewise absent there).
* Python object identity (spikes hold a direct reference to their parent
  platform, the player remembers the platform it stood on) is modelled by a
  per-platform serial number `pid`; a reference is a `pid` resolved in the
  current platform list.
-/

set_option maxRecDepth 4000
set_option linter.unusedVariables false

namespace GG

/-- Python `int(q)`: truncation toward zero. -/
def pyInt (q : ℚ) : Int := if q < 0 then -(Rat.floor (-q)) else Rat.floor q

/-- `pygame.Rect`: integer position and size. -/
structure Rect where
  x : Int
  y : Int
  w : Int
  h : Int
deriving DecidableEq

def Rect.left (r : Rect) : Int := r.x
def Rect.right (r : Rect) : Int := r.x + r.w
def Rect.top (r : Rect) : Int := r.y
def Rect.bottom (r : Rect) : Int := r.y + r.h
/-- pygame `centery = y + h // 2` (our sizes are nonnegative, so `/` agrees). -/
def Rect.centery (r : Rect) : Int := r.y + r.h / 2

/-- pygame `Rect.colliderect`: strict overlap on both axes. -/
def Rect.colliderect (a b : Rect) : Bool :=
  decide (a.left < b.right) && decide (a.right > b.left) &&
  decide (a.top < b.bottom) && decide (a.bottom > b.top)

-- Configuration constants from src/game/config.py.
def WIDTH : Int := 960
def HEIGHT : Int := 540
def SCROLL_PX_PER_S : ℚ := 250
def G_ABS : ℚ := 1800
def JUMP_COOLDOWN_S : ℚ := 18/100
def PLAYER_X : Int := 220
def PLAYER_W : Int := 32
def PLAYER_H : Int := 32
def MAX_VY : ℚ := 1200
def PLATFORM_THICKNESS : Int := 24
def LANE_TOP_Y : Int := 120
def LANE_BOT_Y : Int := HEIGHT - 120
def SEGMENT_MIN_W : ℚ := 160
def SEGMENT_MAX_W : ℚ := 360
def GAP_MIN_W : ℚ := 120
def GAP_MAX_W : ℚ := 260
def MOVING_PLATFORM_SPEED : ℚ := 3/2
def MOVING_PLATFORM_RANGE : ℚ := 60
def MOVING_PLATFORM_CHANCE : ℚ := 3/10

inductive Lane where
  | top
  | bot
deriving DecidableEq

inductive PlatformType where
  | static
  | moving
deriving DecidableEq

/-- A triangle given by three integer points (a spike in world space). -/
structure Tri where
  a : Int × Int
  b : Int × Int
  c : Int × Int
deriving DecidableEq

/-- The abstract external world of the simulation: functions the core calls
but that are not part of the sources under verification.  Keeping them as an
explicit parameter makes every theorem quantify over all of their possible
behaviours. -/
structure ExternalImpl where
  /-- `math.sin`, as used by `Platform.update_movement`. -/
  sinQ : ℚ → ℚ
  /-- The value stream of a seeded `random.Random`: `draw s k` is the k-th
  unit-interval draw of the generator seeded with `s`.  Every derived method
  (`uniform`, `randint`, `choice`) consumes exactly one draw. -/
  draw : Nat → Nat → ℚ
  /-- Modelled from the spec: `rect_intersects_triangle_strict` (section 4.1,
  exact rect-triangle intersection) is imported by `gg_env_v2.py` from
  `src/game/level.py` but the sources we have only define the non-strict
  variant; the claims below do not depend on its internals, so it stays
  abstract. -/
  strictTri : Rect → Tri → Bool
  /-- Modelled from the spec: the `SPIKE_*` constants are imported by
  `level.py` from `config.py` but missing from the `config.py` we have
  (the docstring of `_maybe_add_spikes_for_platform` documents a 25 percent
  chance of 1 to 3 spikes). -/
  spike_chance : ℚ
  spike_min_per_platform : Int
  spike_max_per_platform : Int
  spike_height : Int
  spike_base : Int
  spike_margin_x : Int
  spike_min_spacing : Int

/-- State of a `random.Random` instance: its seed plus how many draws have
been consumed.  Determinism of the stdlib generator is exactly the statement
that the next value is a function of these two data, here `ext.draw`. -/
structure Rng where
  seed : Nat
  idx : Nat
deriving DecidableEq

def Rng.random (ext : ExternalImpl) (r : Rng) : ℚ × Rng :=
  (ext.draw r.seed r.idx, ⟨r.seed, r.idx + 1⟩)

/-- `random.uniform(lo, hi) = lo + (hi - lo) * random()`. -/
def Rng.uniform (ext : ExternalImpl) (r : Rng) (lo hi : ℚ) : ℚ × Rng :=
  let p := Rng.random ext r
  (lo + (hi - lo) * p.1, p.2)

/-- `random.randint(a, b)`: one draw mapped into `[a, b]`. -/
def Rng.randint (ext : ExternalImpl) (r : Rng) (a b : Int) : Int × Rng :=
  let p := Rng.random ext r
  (a + pyInt ((((b + 1 - a : Int) : ℚ)) * p.1), p.2)

/-- `random.choice(["top", "bot"])`: one draw mapped onto the two lanes. -/
def Rng.choiceLane (ext : ExternalImpl) (r : Rng) : Lane × Rng :=
  let p := Rng.random ext r
  (if p.1 < 1/2 then Lane.top else Lane.bot, p.2)

/-- `Platform` from src/game/level.py.  `pid` is the identity serial number
standing in for the Python object identity (`id(p)`). -/
structure Platform where
  rect : Rect
  lane : Lane
  platform_type : PlatformType
  move_range : ℚ
  move_speed : ℚ
  move_time : ℚ
  original_y : ℚ
  pid : Nat
deriving DecidableEq

/-- `Platform.update_movement`: oscillating platforms follow a sine law. -/
def Platform.update_movement (ext : ExternalImpl) (p : Platform) (dt : ℚ) : Platform :=
  if p.platform_type = PlatformType.moving then
    let mt := p.move_time + dt * p.move_speed
    let offset := p.move_range * ext.sinQ mt
    { p with move_time := mt,
             rect := { p.rect with y := pyInt (p.original_y + offset) } }
  else p

/-- `Spike` from src/game/level.py; `pid` is the reference to the parent
platform (the Python field `platform` holds the object itself). -/
structure Spike where
  pid : Nat
  lane : Lane
  local_x : Int
  height : Int
  base : Int
deriving DecidableEq

/-- Resolve a platform reference in the current platform list. -/
def findPlat (ps : List Platform) (pid : Nat) : Option Platform :=
  ps.find? (fun p => p.pid == pid)

/-- `Spike.world_points`, reading the current rectangle of the parent
platform.  `none` when the reference does not resolve (a live spike always
resolves: the level removes a spike as soon as its parent platform is
removed). -/
def Spike.world_points (ps : List Platform) (s : Spike) : Option Tri :=
  match findPlat ps s.pid with
  | none => none
  | some plat =>
    let r := plat.rect
    let cx := r.left + s.local_x
    let half := s.base / 2
    match s.lane with
    | Lane.bot => some ⟨(cx - half, r.top), (cx + half, r.top), (cx, r.top - s.height)⟩
    | Lane.top => some ⟨(cx - half, r.bottom), (cx + half, r.bottom), (cx, r.bottom + s.height)⟩

/-- `Spike.aabb` applied to already computed world points. -/
def triAabb (t : Tri) : Rect :=
  let xmin := min t.a.1 (min t.b.1 t.c.1)
  let xmax := max t.a.1 (max t.b.1 t.c.1)
  let ymin := min t.a.2 (min t.b.2 t.c.2)
  let ymax := max t.a.2 (max t.b.2 t.c.2)
  ⟨xmin, ymin, xmax - xmin, ymax - ymin⟩

/-- `Player` from src/game/player.py.  `standing_on_platform` holds the
`pid` of the remembered supporting platform (the Python field holds the
object itself). -/
structure Player where
  x : ℚ
  y : ℚ
  vy : ℚ
  grav_dir : Int
  grounded : Bool
  flip_cooldown : ℚ
  standing_on_platform : Option Nat
  platform_contact_buffer : ℚ
deriving DecidableEq

def Player.can_flip (p : Player) : Bool :=
  decide (p.flip_cooldown ≤ 0) && (p.grounded || decide (p.platform_contact_buffer > 0))

/-- `Player.try_flip`: flip gravity only when `can_flip`; returns whether the
flip was performed together with the updated player. -/
def Player.try_flip (p : Player) : Bool × Player :=
  if p.can_flip then
    (true, { p with grav_dir := p.grav_dir * (-1),
                    flip_cooldown := JUMP_COOLDOWN_S,
                    vy := 0,
                    grounded := false,
                    standing_on_platform := none,
                    platform_contact_buffer := 0 })
  else (false, p)

/-- `Player.update_physics`: cooldown decay, signed gravity, velocity clamp,
position integration, contact-buffer decay. -/
def Player.update_physics (p : Player) (dt : ℚ) : Player :=
  let cd := if p.flip_cooldown > 0 then
              let c := p.flip_cooldown - dt
              if c < 0 then 0 else c
            else p.flip_cooldown
  let vy1 := p.vy + (p.grav_dir : ℚ) * G_ABS * dt
  let vy2 := max (-MAX_VY) (min MAX_VY vy1)
  let y1 := p.y + vy2 * dt
  let buf := if p.platform_contact_buffer > 0 then
               max 0 (p.platform_contact_buffer - dt)
             else p.platform_contact_buffer
  { p with flip_cooldown := cd, vy := vy2, y := y1, platform_contact_buffer := buf }

-- Local constants of resolve_collisions_with_platforms.
def HORIZONTAL_TOLERANCE : Int := 2
def VERTICAL_STICK_TOL : Int := 3
def CONTACT_BUFFER_S : ℚ := 8/100

/-- The player rectangle used by the resolver and by the environment:
`Rect(PLAYER_X - PLAYER_W // 2, int(y), PLAYER_W, PLAYER_H)`. -/
def playerRectOf (y : ℚ) : Rect :=
  ⟨PLAYER_X - PLAYER_W / 2, pyInt y, PLAYER_W, PLAYER_H⟩

/-- `check_rect = player_rect.inflate_ip(-2 * HORIZONTAL_TOLERANCE, 0)`:
pygame shrinks the width by 4 while keeping the center, so the left edge
moves right by `HORIZONTAL_TOLERANCE`. -/
def checkRectOf (pr : Rect) : Rect :=
  ⟨pr.x + HORIZONTAL_TOLERANCE, pr.y, pr.w - 2 * HORIZONTAL_TOLERANCE, pr.h⟩

/-- The first platform of the list (the for-loop breaks on first hit) whose
horizontal band overlaps `check_rect` and whose opposing surface the player
rectangle currently straddles in the direction of gravity. -/
def findContact (pr check : Rect) (gd : Int) (vy : ℚ) : List Platform → Option Platform
  | [] => none
  | plat :: rest =>
    let pltr := plat.rect
    if check.right ≤ pltr.left ∨ check.left ≥ pltr.right then
      findContact pr check gd vy rest
    else if gd > 0 then
      if pr.bottom ≥ pltr.top ∧ pr.top < pltr.top ∧ vy ≥ 0 then some plat
      else findContact pr check gd vy rest
    else
      if pr.top ≤ pltr.bottom ∧ pr.bottom > pltr.bottom ∧ vy ≤ 0 then some plat
      else findContact pr check gd vy rest

/-- Buffer refresh on a successful sticky re-contact:
`if new_grounded and platform_type == "moving": buffer = max(buffer, CONTACT_BUFFER_S / 2)`. -/
def stickyRefresh (plat : Platform) (p1 : Player) : Player :=
  if plat.platform_type = PlatformType.moving then
    { p1 with platform_contact_buffer := max p1.platform_contact_buffer (CONTACT_BUFFER_S / 2) }
  else p1

/-- Step 0 of the resolver: while the contact buffer runs, try to keep
contact with the remembered platform (slight vertical stick, carrying the
player by the platform displacement `last_dy`).  A remembered platform that
was retired from the level list always has `rect.right ≤ -200`, far left of
the fixed player band, so its horizontal-overlap test fails identically
whether the stale object or a failed lookup is used.
`getattr(plat, "last_dy", 0)` is always `0` because `Platform` never defines
`last_dy`, so the carried displacement is `0`. -/
def stickyContact (p : Player) (platforms : List Platform) : Option Player :=
  let player_rect := playerRectOf p.y
  let check_rect := checkRectOf player_rect
  match p.standing_on_platform with
  | none => none
  | some pid =>
    if p.platform_contact_buffer > 0 then
      match findPlat platforms pid with
      | none => none
      | some plat =>
        let pltr := plat.rect
        if check_rect.right ≤ pltr.left ∨ check_rect.left ≥ pltr.right then none
        else if p.grav_dir > 0 then
          if |player_rect.bottom - pltr.top| ≤ VERTICAL_STICK_TOL then
            -- carried by last_dy = 0
            some (stickyRefresh plat { p with y := p.y + 0 })
          else none
        else
          if |player_rect.top - pltr.bottom| ≤ VERTICAL_STICK_TOL then
            -- carried by last_dy = 0
            some (stickyRefresh plat { p with y := p.y + 0 })
          else none
    else none

/-- `Player.resolve_collisions_with_platforms`.  Returns the updated player
together with `(new_grounded, collision_occurred)`. -/
def Player.resolve_collisions_with_platforms (p : Player) (platforms : List Platform) :
    Player × Bool × Bool :=
  let player_rect := playerRectOf p.y
  let check_rect := checkRectOf player_rect
  match stickyContact p platforms with
  | some p1 =>
    -- Step 2 with a grounded player and no fresh contacted platform:
    -- the remembered platform and buffer are kept as refreshed above.
    ({ p1 with grounded := true }, true, true)
  | none =>
    -- Step 1: fresh sweep over the platform list, first hit wins.
    match findContact player_rect check_rect p.grav_dir p.vy platforms with
    | some plat =>
      let p1 :=
        if p.grav_dir > 0 then
          { p with y := (plat.rect.top : ℚ) - (PLAYER_H : ℚ), vy := 0 }
        else
          { p with y := (plat.rect.bottom : ℚ), vy := 0 }
      -- Moving platforms additionally carry the player by last_dy = 0 and
      -- are remembered; step 2 then re-records the contacted platform and
      -- sets the buffer from its type.
      let p2 := { p1 with y := p1.y + (if plat.platform_type = PlatformType.moving then 0 else 0),
                          standing_on_platform := some plat.pid,
                          platform_contact_buffer :=
                            if plat.platform_type = PlatformType.moving then CONTACT_BUFFER_S
                            else 0 }
      ({ p2 with grounded := true }, true, true)
    | none =>
      -- Step 2 without grounding: forget the remembered platform once the
      -- buffer has run out.
      let p1 := if p.platform_contact_buffer ≤ 0 then { p with standing_on_platform := none }
                else p
      ({ p1 with grounded := false }, false, false)

/-- `Player.resolve_collisions_swept`: legacy wrapper; the `prev_y` argument
is ignored and the current resolver is called. -/
def Player.resolve_collisions_swept (p : Player) (prev_y : ℚ) (platforms : List Platform) :
    Player × Bool × Bool :=
  Player.resolve_collisions_with_platforms p platforms

/-- Claim-side reading of "the swept rectangle crosses a platform's floor
surface within one sub-step" while moving toward increasing y: the bottom
edge goes from at or above the platform top to at or below it. -/
def sweptCrossesFloor (prev_y y : ℚ) (r : Rect) : Prop :=
  prev_y + (PLAYER_H : ℚ) ≤ (r.top : ℚ) ∧ (r.top : ℚ) ≤ y + (PLAYER_H : ℚ)

/-- Claim-side reading of the swept crossing of a ceiling surface while
moving toward decreasing y: the top edge goes from at or below the platform
bottom to at or above it. -/
def sweptCrossesCeiling (prev_y y : ℚ) (r : Rect) : Prop :=
  (r.bottom : ℚ) ≤ prev_y ∧ y ≤ (r.bottom : ℚ)

/-- `LevelGen` state.  `next_pid` is the serial-number source standing in for
Python object identity of freshly constructed platforms. -/
structure LevelGen where
  seed : Nat
  rng : Rng
  platforms : List Platform
  spikes : List Spike
  consecutive_moving : Nat
  last_safe_x : Int
  next_pid : Nat
deriving DecidableEq

/-- `LevelGen._should_make_moving_platform`.  Note the short-circuit: when
two platforms in a row already move, no draw is consumed. -/
def should_make_moving_platform (ext : ExternalImpl) (st : LevelGen) : Bool × LevelGen :=
  if st.consecutive_moving ≥ 2 then (false, st)
  else
    let p := Rng.random ext st.rng
    let st1 := { st with rng := p.2 }
    if p.1 > MOVING_PLATFORM_CHANCE then (false, st1) else (true, st1)

/-- `LevelGen._create_platform`.  When `force_static` is set the moving-draw
is short-circuited away (Python `not force_static and self._should_...`),
and the consecutive-moving counter is reset even inside a pair whose other
lane just became moving. -/
def create_platform (ext : ExternalImpl) (st : LevelGen) (x : Int) (lane : Lane) (w : Int)
    (force_static : Bool) : Platform × LevelGen :=
  let y_line := if lane = Lane.top then LANE_TOP_Y else LANE_BOT_Y
  let rect : Rect :=
    if lane = Lane.top then ⟨x, y_line - PLATFORM_THICKNESS, w, PLATFORM_THICKNESS⟩
    else ⟨x, y_line, w, PLATFORM_THICKNESS⟩
  let mk := fun (ty : PlatformType) (mrange mspeed mtime : ℚ) (st2 : LevelGen) =>
    (Platform.mk rect lane ty mrange mspeed mtime (rect.y : ℚ) st2.next_pid,
     { st2 with next_pid := st2.next_pid + 1 })
  if force_static then
    mk PlatformType.static 0 0 0 { st with consecutive_moving := 0 }
  else
    let q := should_make_moving_platform ext st
    if q.1 then
      let safe_range :=
        if lane = Lane.top then
          let max_down := ((LANE_BOT_Y - LANE_TOP_Y : Int) : ℚ) * (6/10)
          let max_up := ((LANE_TOP_Y : Int) : ℚ) * (8/10)
          min MOVING_PLATFORM_RANGE (min max_down max_up)
        else
          let max_up := ((LANE_BOT_Y - LANE_TOP_Y : Int) : ℚ) * (6/10)
          let max_down := ((HEIGHT - LANE_BOT_Y : Int) : ℚ) * (8/10)
          min MOVING_PLATFORM_RANGE (min max_up max_down)
      let ph := Rng.random ext q.2.rng
      let st2 := { q.2 with rng := ph.2, consecutive_moving := q.2.consecutive_moving + 1 }
      mk PlatformType.moving safe_range MOVING_PLATFORM_SPEED (ph.1 * (628/100)) st2
    else
      mk PlatformType.static 0 0 0 { q.2 with consecutive_moving := 0 }

/-- Inner while-loop of `_maybe_add_spikes_for_platform`: pick base centers
in the usable zone, keeping a minimal center distance, up to 50 attempts. -/
def spikePositionsLoop (ext : ExternalImpl) (usable_left usable_right min_center_dist : Int)
    (count : Int) : Nat → List Int → Rng → List Int × Rng
  | 0, positions, rng => (positions, rng)
  | Nat.succ fuel, positions, rng =>
    if (positions.length : Int) < count then
      let q := Rng.randint ext rng usable_left usable_right
      let positions1 :=
        if positions.all (fun c => |q.1 - c| ≥ min_center_dist) then positions ++ [q.1]
        else positions
      spikePositionsLoop ext usable_left usable_right min_center_dist count fuel positions1 q.2
    else (positions, rng)

/-- `LevelGen._maybe_add_spikes_for_platform`: outside the spawn corridor,
with probability `SPIKE_CHANCE`, attach 1 to 3 spikes with edge margins and
minimal spacing. -/
def maybe_add_spikes_for_platform (ext : ExternalImpl) (st : LevelGen) (plat : Platform) :
    LevelGen :=
  if plat.rect.right ≤ WIDTH then st
  else
    let q := Rng.random ext st.rng
    let st1 := { st with rng := q.2 }
    if q.1 > ext.spike_chance then st1
    else
      let half_base := ext.spike_base / 2
      let usable_left := plat.rect.left + max ext.spike_margin_x half_base
      let usable_right := plat.rect.right - max ext.spike_margin_x half_base
      let usable_w := max 0 (usable_right - usable_left)
      if usable_w < ext.spike_base then st1
      else
        let min_center_dist := ext.spike_base + ext.spike_min_spacing
        let max_possible :=
          if usable_w ≥ ext.spike_base then 1 + (usable_w - ext.spike_base) / min_center_dist
          else 0
        if max_possible ≤ 0 then st1
        else
          let d := Rng.randint ext st1.rng ext.spike_min_per_platform ext.spike_max_per_platform
          let count := min d.1 max_possible
          let pos := spikePositionsLoop ext usable_left usable_right min_center_dist count 50 [] d.2
          let newSpikes := pos.1.map (fun cx =>
            Spike.mk plat.pid plat.lane (cx - plat.rect.left) ext.spike_height ext.spike_base)
          { st1 with rng := pos.2, spikes := st1.spikes ++ newSpikes }

/-- `LevelGen._on_platform_created`. -/
def on_platform_created (ext : ExternalImpl) (st : LevelGen) (plat : Platform) (safe : Bool) :
    LevelGen :=
  if safe then st else maybe_add_spikes_for_platform ext st plat

/-- `WIDTH * 1.5`, the generation horizon used by `_init_start` and
`update_and_generate` (exactly 1440). -/
def widthLimit : Int := WIDTH * 3 / 2

/-- While-loop of `LevelGen._init_start`: forced-static platform pairs of
width `WIDTH // 3` until `x` reaches the horizon.  The loop always exits
after five iterations; the fuel is a strict upper bound on that. -/
def initStartLoop (ext : ExternalImpl) : Nat → LevelGen → Int → LevelGen
  | 0, st, x => { st with last_safe_x := x }
  | Nat.succ fuel, st, x =>
    if x < widthLimit then
      let w := WIDTH / 3
      let t := create_platform ext st x Lane.top w true
      let st1 := { t.2 with platforms := t.2.platforms ++ [t.1] }
      let st2 := on_platform_created ext st1 t.1 true
      let b := create_platform ext st2 x Lane.bot w true
      let st3 := { b.2 with platforms := b.2.platforms ++ [b.1] }
      let st4 := on_platform_created ext st3 b.1 true
      initStartLoop ext fuel st4 (x + w)
    else { st with last_safe_x := x }

/-- `LevelGen.__init__` with an explicit seed (the seedless constructor
draws a seed from the unseeded module-level generator and is outside the
claims considered here). -/
def LevelGen.init (ext : ExternalImpl) (seed : Nat) : LevelGen :=
  let st0 : LevelGen :=
    { seed := seed, rng := ⟨seed, 0⟩, platforms := [], spikes := [],
      consecutive_moving := 0, last_safe_x := 0, next_pid := 0 }
  initStartLoop ext 8 st0 0

/-- `LevelGen._rand_w`: `int(self.rng.uniform(lo, hi))`. -/
def rand_w (ext : ExternalImpl) (st : LevelGen) (lo hi : ℚ) : Int × LevelGen :=
  let u := Rng.uniform ext st.rng lo hi
  (pyInt u.1, { st with rng := u.2 })

/-- `LevelGen._generate_segment_pair`: one top and one bottom platform of a
common random width.  `force_one_static` short-circuits: with a positive
consecutive-moving count no draw is consumed. -/
def generate_segment_pair (ext : ExternalImpl) (st : LevelGen) (x : Int) :
    (List Platform × Int) × LevelGen :=
  let ww := rand_w ext st SEGMENT_MIN_W SEGMENT_MAX_W
  let w := ww.1
  let fos :=
    if ww.2.consecutive_moving > 0 then (true, ww.2)
    else
      let q := Rng.random ext ww.2.rng
      (decide (q.1 < 7/10), { ww.2 with rng := q.2 })
  if fos.1 then
    let ch := Rng.choiceLane ext fos.2.rng
    let st2 := { fos.2 with rng := ch.2 }
    let t := create_platform ext st2 x Lane.top w (decide (Lane.top = ch.1))
    let b := create_platform ext t.2 x Lane.bot w (decide (Lane.bot = ch.1))
    (([t.1, b.1], w), b.2)
  else
    let t := create_platform ext fos.2 x Lane.top w false
    let b := create_platform ext t.2 x Lane.bot w false
    (([t.1, b.1], w), b.2)

/-- `LevelGen._generate_gap`: no platforms, only a random advance. -/
def generate_gap (ext : ExternalImpl) (st : LevelGen) (x : Int) :
    (List Platform × Int) × LevelGen :=
  let ww := rand_w ext st GAP_MIN_W GAP_MAX_W
  (([], ww.1), ww.2)

/-- Maximum of a list with a default for the empty list
(`max(xs, default=0)`). -/
def listMaxD (d : Int) : List Int → Int
  | [] => d
  | x :: xs => xs.foldl max x

/-- Generation while-loop of `update_and_generate`: segment pair with
probability 0.65, gap otherwise (resetting the consecutive-moving counter),
until the frontier passes the horizon.  Every generated width is at least
`GAP_MIN_W = 120` for in-range draws, so the loop exits well within the fuel
used by the environment. -/
def genLoop (ext : ExternalImpl) : Nat → LevelGen → Int → LevelGen
  | 0, st, _ => st
  | Nat.succ fuel, st, target_x =>
    if target_x < widthLimit then
      let q := Rng.random ext st.rng
      let st1 := { st with rng := q.2 }
      if q.1 < 65/100 then
        let seg := generate_segment_pair ext st1 target_x
        let newps := seg.1.1
        let st2 := { seg.2 with platforms := seg.2.platforms ++ newps }
        let st3 := newps.foldl (fun acc pl => on_platform_created ext acc pl false) st2
        genLoop ext fuel st3 (target_x + seg.1.2)
      else
        let gp := generate_gap ext st1 target_x
        let st2 := { gp.2 with consecutive_moving := 0 }
        genLoop ext fuel st2 (target_x + gp.1.2)
    else st

/-- Scroll of a single platform followed by its oscillation update, as done
for every platform at the top of `update_and_generate`. -/
def scrollPlatform (ext : ExternalImpl) (dt : ℚ) (dx : Int) (p : Platform) : Platform :=
  Platform.update_movement ext { p with rect := { p.rect with x := p.rect.x - dx } } dt

/-- Fuel for the generation while-loop (the loop needs at most 12 rounds to
cross the 1440 px horizon for in-range draws). -/
def GEN_FUEL : Nat := 64

/-- `LevelGen.update_and_generate`: scroll and oscillate platforms, retire
the ones past the left margin, drop spikes whose parent was retired
(identity based), then extend the ribbon up to the horizon. -/
def update_and_generate (ext : ExternalImpl) (st : LevelGen) (dt : ℚ) : LevelGen :=
  let dx := pyInt (SCROLL_PX_PER_S * dt)
  let moved := st.platforms.map (scrollPlatform ext dt dx)
  let kept := moved.filter (fun p => decide (p.rect.right > -200))
  let spikes1 := st.spikes.filter (fun s =>
    match findPlat kept s.pid with
    | some pp => decide (pp.rect.right > -200)
    | none => false)
  let right_edge := listMaxD 0 (kept.map (fun p => p.rect.right))
  let st1 := { st with platforms := kept, spikes := spikes1 }
  let target_x := max right_edge 0
  genLoop ext GEN_FUEL st1 target_x

-- Observation encoder, src/env/observation_v2.py.

/-- Probe positions ahead of the player (world space). -/
def PROBE_OFFSETS_V2 : List Int := [120, 240, 360]

def clamp01 (x : ℚ) : ℚ := if x < 0 then 0 else if x > 1 then 1 else x

/-- `_norm_top_y`: normalize a top coordinate into `[0,1]` over
`[0, HEIGHT - PLAYER_H]`. -/
def norm_top_y (y_top : ℚ) : ℚ :=
  let denom := max 1 (HEIGHT - PLAYER_H)
  clamp01 (y_top / (denom : ℚ))

/-- `_norm_vy`: clip to `[-MAX_VY, MAX_VY]` and scale to `[-1,1]`. -/
def norm_vy (vy : ℚ) : ℚ :=
  let vy_max := max 1 MAX_VY
  let vv := max (-vy_max) (min vy vy_max)
  vv / vy_max

/-- Loop body of `_surfaces_at_x` for one rectangle: a covering top-lane
rect lowers the ceiling candidate (minimum bottom), a covering bottom-lane
rect raises the floor candidate (maximum top).  Lane classification
compares the rect center with `HEIGHT * 0.5`. -/
def surfStep (x : Int) (acc : Option Int × Option Int) (r : Rect) : Option Int × Option Int :=
  if r.left ≤ x ∧ x < r.right then
    if (r.centery : ℚ) < (HEIGHT : ℚ) * (1/2) then
      (match acc.1 with
       | none => some r.bottom
       | some c => if r.bottom < c then some r.bottom else some c, acc.2)
    else
      (acc.1, match acc.2 with
       | none => some r.top
       | some f => if r.top > f then some r.top else some f)
  else acc

/-- `_surfaces_at_x`: the lowest underside among top-lane platforms covering
`x` (the ceiling) and the highest top among bottom-lane platforms covering
`x` (the floor); `none` when absent. -/
def surfaces_at_x (platform_rects : List Rect) (x : Int) : Option Int × Option Int :=
  platform_rects.foldl (surfStep x) (none, none)

/-- Claim-side reading of "a ceiling surface covers the probe x": a
top-lane rectangle (center above mid screen) whose horizontal span contains
`x`. -/
def coversAsCeiling (r : Rect) (x : Int) : Prop :=
  r.left ≤ x ∧ x < r.right ∧ (r.centery : ℚ) < (HEIGHT : ℚ) * (1/2)

/-- Claim-side reading of "a floor surface covers the probe x". -/
def coversAsFloor (r : Rect) (x : Int) : Prop :=
  r.left ≤ x ∧ x < r.right ∧ ¬((r.centery : ℚ) < (HEIGHT : ℚ) * (1/2))

/-- Lane flag update of `_spike_presence_near_x`: set to 1 when the spike
is in the window on the matching lane, keep the accumulator otherwise. -/
def spikeFlagUpdate (cond : Bool) (h : Int) : Int := if cond then 1 else h

/-- Loop body of `_spike_presence_near_x` with the early exit once both
lanes have been seen.  A spike whose platform reference does not resolve is
skipped (the unknown-format `continue` path; live spikes always resolve). -/
def spikePresenceLoop (plats : List Platform) (x window : Int) :
    List Spike → Int → Int → Int × Int
  | [], has_top, has_bot => (has_top, has_bot)
  | sp :: rest, has_top, has_bot =>
    match findPlat plats sp.pid with
    | none => spikePresenceLoop plats x window rest has_top has_bot
    | some plat =>
      let world_x := plat.rect.left + sp.local_x
      let near := decide (|world_x - x| ≤ window)
      let has_top1 := spikeFlagUpdate (near && decide (sp.lane = Lane.top)) has_top
      let has_bot1 := spikeFlagUpdate (near && decide (sp.lane = Lane.bot)) has_bot
      if has_top1 = 1 ∧ has_bot1 = 1 then (has_top1, has_bot1)
      else spikePresenceLoop plats x window rest has_top1 has_bot1

/-- `_spike_presence_near_x` with the default window
`SPIKE_WINDOW_PX = max(16, SPIKE_BASE // 2)`. -/
def spike_presence_near_x (ext : ExternalImpl) (plats : List Platform) (spikes : List Spike)
    (x : Int) : Int × Int :=
  spikePresenceLoop plats x (max 16 (ext.spike_base / 2)) spikes 0 0

/-- The four features appended per probe offset: normalized ceiling
(sentinel 0 when none), normalized floor (sentinel 1 when none) and the two
spike-presence flags. -/
def probe_features (ext : ExternalImpl) (platform_rects : List Rect) (plats : List Platform)
    (spikes : List Spike) (px : Int) : List ℚ :=
  let s := surfaces_at_x platform_rects px
  let ceil_norm : ℚ :=
    match s.1 with
    | none => 0
    | some cy => clamp01 ((cy : ℚ) / (HEIGHT : ℚ))
  let floor_norm : ℚ :=
    match s.2 with
    | none => 1
    | some fy => clamp01 ((fy : ℚ) / (HEIGHT : ℚ))
  let flags := spike_presence_near_x ext plats spikes px
  [ceil_norm, floor_norm, (flags.1 : ℚ), (flags.2 : ℚ)]

/-- `build_observation_v2`: the flat 15-entry feature vector.  The
`plats` argument carries the platform objects referenced by the spikes
(`sp.platform.rect.left` in the source). -/
def build_observation_v2 (ext : ExternalImpl) (player : Player) (platform_rects : List Rect)
    (plats : List Platform) (spikes : List Spike) : List ℚ :=
  let y_top_norm := norm_top_y player.y
  let vy_norm := norm_vy player.vy
  let grav : ℚ := if player.grav_dir > 0 then 1 else -1
  let base_x := PLAYER_X
  [y_top_norm, vy_norm, grav] ++
    PROBE_OFFSETS_V2.foldr
      (fun dx acc => probe_features ext platform_rects plats spikes (base_x + dx) ++ acc) []

-- Environment, src/env/gg_env_v2.py.

/-- `death_cause`: `"spike" | "oob" | None` (the latter is `Option.none`). -/
inductive DeathCause where
  | spike
  | oob
deriving DecidableEq

/-- Fixed internal timestep: `sim_fps = 60`, `dt = 1 / sim_fps`. -/
def simDt : ℚ := 1/60

/-- Session state of `GGEnv`.  `level = none` and `player = none` before the
first `reset` (rendering fields are external and omitted). -/
structure GGEnv where
  frame_skip : Nat
  time_limit_decisions : Option Int
  level : Option LevelGen
  player : Option Player
  alive : Bool
  distance_px : ℚ
  timestep : Nat
  current_seed : Option Nat
  last_grounded : Bool
  death_cause : Option DeathCause
deriving DecidableEq

/-- `GGEnv.__init__` (the constructor asserts `frame_skip >= 1`; every use
below satisfies it).  `time_limit_decisions = int(sim_fps * seconds /
frame_skip)` when a limit is configured. -/
def GGEnv.init (frame_skip : Nat) (time_limit_seconds : Option ℚ) : GGEnv :=
  { frame_skip := frame_skip,
    time_limit_decisions :=
      time_limit_seconds.map (fun t => pyInt ((60 : ℚ) * t / (frame_skip : ℚ))),
    level := none, player := none, alive := true, distance_px := 0, timestep := 0,
    current_seed := none, last_grounded := false, death_cause := none }

/-- `GGEnv._player_rect` (top-based `int(y)`). -/
def envPlayerRect (pl : Player) : Rect := playerRectOf pl.y

/-- `GGEnv._check_spike_death`: AABB prefilter, then the strict exact
rect-triangle test, over every live spike. -/
def check_spike_death (ext : ExternalImpl) (lvl : LevelGen) (pl : Player) : Bool :=
  let pr := envPlayerRect pl
  lvl.spikes.any (fun sp =>
    match Spike.world_points lvl.platforms sp with
    | some tri => Rect.colliderect (triAabb tri) pr && ext.strictTri pr tri
    | none => false)

/-- `GGEnv._out_of_bounds`: a generous margin beyond the screen extent. -/
def out_of_bounds (pl : Player) : Bool :=
  decide (pl.y < -80) || decide (pl.y > (HEIGHT : ℚ) + 80)

/-- `GGEnv._get_obs`: the platform rectangles and live spikes are passed to
the encoder (the platform list itself additionally carries the objects the
spikes reference). -/
def getObs (ext : ExternalImpl) (lvl : LevelGen) (pl : Player) : List ℚ :=
  build_observation_v2 ext pl (lvl.platforms.map Platform.rect) lvl.platforms lvl.spikes

/-- The mutable state threaded through the frame-skip sub-step loop of
`GGEnv.step`. -/
structure SubState where
  level : LevelGen
  player : Player
  alive : Bool
  death_cause : Option DeathCause
  dist : ℚ
  grounded : Bool
  died : Bool
deriving DecidableEq

/-- One physics sub-step of `GGEnv.step`: level tick, player physics,
collision resolution, spike and out-of-bounds death checks, distance
accrual (the distance advances regardless of alive or dead). -/
def subStepOnce (ext : ExternalImpl) (s : SubState) : SubState :=
  let lvl1 := update_and_generate ext s.level simDt
  let plA := s.player.update_physics simDt
  let rc := plA.resolve_collisions_with_platforms lvl1.platforms
  let pl2 := rc.1
  let g := rc.2.1
  let spiked := check_spike_death ext lvl1 pl2
  let oob := out_of_bounds pl2
  let adc : Bool × Option DeathCause × Bool :=
    if spiked then (false, some DeathCause.spike, true)
    else if oob then (false, some DeathCause.oob, true)
    else (s.alive, s.death_cause, s.died)
  { level := lvl1, player := pl2, alive := adc.1, death_cause := adc.2.1,
    dist := s.dist + SCROLL_PX_PER_S * simDt, grounded := g, died := adc.2.2 }

/-- The `for _ in range(frame_skip)` loop with its early exit on death.
The second component counts the sub-steps actually executed (the loop index
at which the `break` fired, or the full count). -/
def subStepLoop (ext : ExternalImpl) (s : SubState) : Nat → SubState × Nat
  | 0 => (s, 0)
  | Nat.succ n =>
    if (subStepOnce ext s).died then (subStepOnce ext s, 1)
    else ((subStepLoop ext (subStepOnce ext s) n).1,
          (subStepLoop ext (subStepOnce ext s) n).2 + 1)

/-- The per-step result of `GGEnv.step`: observation, reward, the two end
flags, and the `info` fields. -/
structure StepResult where
  obs : List ℚ
  reward : ℚ
  terminated : Bool
  truncated : Bool
  grounded : Bool
  death_cause : Option DeathCause
  distance_px : ℚ
  timestep : Nat
  seed : Option Nat
deriving DecidableEq

/-- Body of `GGEnv.step` after the entry assertions: the flip is attempted
once at the start of the decision, then the sub-step batch runs, then
reward, flags, bookkeeping and the observation snapshot. -/
def stepCore (ext : ExternalImpl) (e : GGEnv) (lvl : LevelGen) (pl : Player) (action : Int) :
    GGEnv × StepResult :=
  let pl1 := if action = 1 ∧ e.alive = true then (Player.try_flip pl).2 else pl
  let L := subStepLoop ext ⟨lvl, pl1, e.alive, e.death_cause, e.distance_px, false, false⟩
             e.frame_skip
  let s := L.1
  let reward : ℚ := if s.alive then 1 else -1
  let ts := e.timestep + 1
  let terminated := !s.alive
  let truncated :=
    match e.time_limit_decisions with
    | some lim => decide ((ts : Int) ≥ lim)
    | none => false
  let e1 : GGEnv :=
    { e with level := some s.level, player := some s.player, alive := s.alive,
             death_cause := s.death_cause, distance_px := s.dist, timestep := ts }
  let obs := getObs ext s.level s.player
  (e1, { obs := obs, reward := reward, terminated := terminated, truncated := truncated,
         grounded := s.grounded, death_cause := s.death_cause, distance_px := s.dist,
         timestep := ts, seed := e.current_seed })

/-- `GGEnv.step`: the two entry assertions fire before any state is touched,
so an invalid action or a step before reset raises with the session
unchanged (`none`). -/
def stepEnv (ext : ExternalImpl) (e : GGEnv) (action : Int) : Option (GGEnv × StepResult) :=
  if ¬(0 ≤ action ∧ action < 2) then none
  else
    match e.level, e.player with
    | some lvl, some pl => some (stepCore ext e lvl pl action)
    | _, _ => none

/-- `GGEnv.reset` with an explicit seed: fresh level and player, episode
bookkeeping cleared, initial observation and the resolved seed returned.
The `self.player.rect.topleft = ...` line of the source assigns into the
throwaway rectangle produced by the `rect` property and therefore has no
effect on the player. -/
def resetEnv (ext : ExternalImpl) (e : GGEnv) (seed : Nat) : GGEnv × (List ℚ × Nat) :=
  let lvl := LevelGen.init ext seed
  let pl : Player :=
    { x := (PLAYER_X : ℚ), y := (HEIGHT : ℚ) / 2 - (PLAYER_H : ℚ) / 2, vy := 0,
      grav_dir := 1, grounded := false, flip_cooldown := 0,
      standing_on_platform := none, platform_contact_buffer := 0 }
  let e1 : GGEnv :=
    { e with level := some lvl, player := some pl, alive := true, death_cause := none,
             distance_px := 0, timestep := 0, current_seed := some lvl.seed,
             last_grounded := false }
  (e1, (getObs ext lvl pl, lvl.seed))

/-- Per-decision output trace of a session: each entry is the `StepResult`
of one `step` call (`none` when the call was rejected, in which case the
session state is unchanged for the next call). -/
def rolloutTrace (ext : ExternalImpl) : GGEnv → List Int → List (Option StepResult)
  | _, [] => []
  | e, a :: rest =>
    match stepEnv ext e a with
    | none => none :: rolloutTrace ext e rest
    | some er => some er.2 :: rolloutTrace ext er.1 rest

-- Concrete instantiations used to evaluate the model on explicit inputs.

/-- A concrete external world: zero sine, a constant draw stream at 0.9
(so the generation loop only emits gaps), a strict triangle test that never
fires, and plausible spike configuration values. -/
def extW : ExternalImpl :=
  { sinQ := fun _ => 0, draw := fun _ _ => 9/10, strictTri := fun _ _ => false,
    spike_chance := 1/4, spike_min_per_platform := 1, spike_max_per_platform := 3,
    spike_height := 14, spike_base := 18, spike_margin_x := 12, spike_min_spacing := 40 }

/-- Draw stream exhibiting the generation-order slip: draw 1 selects the
forced-static pair (value below 0.7), draw 2 puts the static platform on the
bottom lane, draw 3 makes the top lane oscillate; draw 6 then declines the
forced-static branch for the next pair and draws 7 and 9 make both of its
lanes oscillate. -/
def extC2 : ExternalImpl :=
  { extW with draw := fun _ i => if i = 2 ∨ i = 6 then 9/10 else 1/10 }

/-- An empty level state (every platform already retired). -/
def lvlEmpty : LevelGen :=
  { seed := 0, rng := ⟨0, 0⟩, platforms := [], spikes := [],
    consecutive_moving := 0, last_safe_x := 0, next_pid := 0 }

/-- A freshly spawned player resting state. -/
def plW : Player :=
  { x := 220, y := 254, vy := 0, grav_dir := 1, grounded := false,
    flip_cooldown := 0, standing_on_platform := none, platform_contact_buffer := 0 }

/-- A player that is airborne but still inside the contact-grace window of a
remembered platform: not grounded, cooldown elapsed, buffer positive. -/
def plBuf : Player :=
  { x := 220, y := 254, vy := 0, grav_dir := 1, grounded := false,
    flip_cooldown := 0, standing_on_platform := some 7, platform_contact_buffer := 1/20 }

/-- A grounded player with elapsed cooldown (the nominal flip state). -/
def plGround : Player :=
  { x := 220, y := 254, vy := 0, grav_dir := 1, grounded := true,
    flip_cooldown := 0, standing_on_platform := none, platform_contact_buffer := 0 }

/-- A player above the bottom screen margin, about to die out of bounds. -/
def plHigh : Player :=
  { x := 220, y := 700, vy := 0, grav_dir := 1, grounded := false,
    flip_cooldown := 0, standing_on_platform := none, platform_contact_buffer := 0 }

/-- A session in the contact-grace flip state. -/
def envBuf : GGEnv :=
  { frame_skip := 1, time_limit_decisions := none, level := some lvlEmpty,
    player := some plBuf, alive := true, distance_px := 0, timestep := 0,
    current_seed := some 0, last_grounded := false, death_cause := none }

/-- A session whose episode already terminated out of bounds. -/
def envDead : GGEnv :=
  { frame_skip := 1, time_limit_decisions := none, level := some lvlEmpty,
    player := some plW, alive := false, distance_px := 0, timestep := 3,
    current_seed := some 0, last_grounded := false, death_cause := some DeathCause.oob }

/-- A live session one decision away from its configured time limit, with
the player positioned to die out of bounds during that decision. -/
def envLimit : GGEnv :=
  { frame_skip := 1, time_limit_decisions := some 5, level := some lvlEmpty,
    player := some plHigh, alive := true, distance_px := 0, timestep := 4,
    current_seed := some 0, last_grounded := false, death_cause := none }

/-- A live session with a grounded player, used to exercise the nominal
flip. -/
def envGround : GGEnv :=
  { frame_skip := 1, time_limit_decisions := some 5, level := some lvlEmpty,
    player := some plGround, alive := true, distance_px := 0, timestep := 0,
    current_seed := some 0, last_grounded := false, death_cause := none }

/-- An oscillating platform whose top surface sits at y = 300. -/
def platStick : Platform :=
  { rect := ⟨180, 300, 200, 24⟩, lane := Lane.bot, platform_type := PlatformType.moving,
    move_range := 60, move_speed := 3/2, move_time := 0, original_y := 300, pid := 1 }

/-- A player two pixels below the top surface of `platStick`, still inside
the stick tolerance of its remembered contact, moving downward fast: the
swept segment from the previous sub-step position crossed the surface. -/
def plStick : Player :=
  { x := 220, y := 270, vy := 120, grav_dir := 1, grounded := false,
    flip_cooldown := 0, standing_on_platform := some 1, platform_contact_buffer := 1/25 }

/-- The same falling geometry as `plStick` but with no remembered contact:
the fresh collision sweep applies. -/
def plFall : Player :=
  { x := 220, y := 270, vy := 120, grav_dir := 1, grounded := false,
    flip_cooldown := 0, standing_on_platform := none, platform_contact_buffer := 0 }

-- Batteries seals the rational operations; kernel evaluation of the model
-- on concrete inputs needs them reducible.
unseal Rat.mul Rat.add Rat.sub Rat.inv Rat.ofScientific

lemma ratFloor_eq_intFloor (q : ℚ) : Rat.floor q = ⌊q⌋ := by
  rw [Rat.floor_def', Rat.floor_def]

lemma pyInt_eq_floor (q : ℚ) (h : 0 ≤ q) : pyInt q = ⌊q⌋ := by
  unfold pyInt
  rw [if_neg (not_lt.2 h)]
  exact ratFloor_eq_intFloor q

lemma update_movement_rect_x (ext : ExternalImpl) (p : Platform) (dt : ℚ) :
    (Platform.update_movement ext p dt).rect.x = p.rect.x := by
  unfold Platform.update_movement
  split <;> rfl

lemma scrollPlatform_rect_x (ext : ExternalImpl) (dt : ℚ) (dx : Int) (p : Platform) :
    (scrollPlatform ext dt dx p).rect.x = p.rect.x - dx := by
  unfold scrollPlatform
  rw [update_movement_rect_x]

/-- C9.  Invalid-input rejection with atomicity: a step with an action
outside `{0, 1}`, or a step on a session that has no level or player yet
(no reset has run), fails at the entry assertions and returns no successor
state at all: the session the caller holds is untouched. -/
theorem invalid_step_rejected (ext : ExternalImpl) (e : GGEnv) (a : Int)
    (h : ¬(0 ≤ a ∧ a < 2) ∨ e.level = none ∨ e.player = none) :
    stepEnv ext e a = none := by
  unfold stepEnv
  rcases h with h | h | h
  · simp [h]
  · by_cases hv : 0 ≤ a ∧ a < 2
    · cases hp : e.player <;> simp [hv, h, hp]
    · simp [hv]
  · by_cases hv : 0 ≤ a ∧ a < 2
    · cases hl : e.level <;> simp [hv, h, hl]
    · simp [hv]

/-- Witness for C9: a session that never ran `reset` (the freshly
constructed environment) rejects even a valid action. -/
theorem invalid_step_rejected_witness :
    stepEnv extW (GGEnv.init 4 (some 30)) 0 = none :=
  invalid_step_rejected extW (GGEnv.init 4 (some 30)) 0 (Or.inr (Or.inl rfl))

/-- C1.  Determinism: the whole session state lives in one `GGEnv` value and
`stepEnv` is a pure function of it, so two independent sessions that reset
with the same seed produce identical output traces (observations, rewards,
terminated and truncated flags alike) on any common action sequence, for
every behaviour of the external world (sine, seeded draw stream, strict
triangle test). -/
theorem determinism_reset_step (ext : ExternalImpl) (fs : Nat) (tls : Option ℚ)
    (seed : Nat) (acts : List Int) (e1 e2 : GGEnv)
    (h1 : e1 = (resetEnv ext (GGEnv.init fs tls) seed).1)
    (h2 : e2 = (resetEnv ext (GGEnv.init fs tls) seed).1) :
    rolloutTrace ext e1 acts = rolloutTrace ext e2 acts := by
  subst h1
  subst h2
  rfl

/-- Witness for C1 at a concrete seed and action sequence. -/
theorem determinism_reset_step_witness :
    rolloutTrace extW (resetEnv extW (GGEnv.init 4 (some 30)) 12345).1 [0, 1, 0]
      = rolloutTrace extW (resetEnv extW (GGEnv.init 4 (some 30)) 12345).1 [0, 1, 0] :=
  determinism_reset_step extW 4 (some 30) 12345 [0, 1, 0] _ _ rfl rfl

/-- C10.  Scroll quantization: every physics tick moves each live platform
left by exactly `int(SCROLL_PX_PER_S * dt)` pixels (4 px at dt = 1/60),
while the session distance counter accrues the untruncated
`SCROLL_PX_PER_S * dt = 25/6` px on the same tick; whenever that product is
not an integer the accumulated reported distance strictly exceeds the
distance the world scrolled. -/
theorem scroll_quantization :
    (∀ (ext : ExternalImpl) (dt : ℚ) (p : Platform),
      (scrollPlatform ext dt (pyInt (SCROLL_PX_PER_S * dt)) p).rect.x
        = p.rect.x - pyInt (SCROLL_PX_PER_S * dt)) ∧
    pyInt (SCROLL_PX_PER_S * simDt) = 4 ∧
    SCROLL_PX_PER_S * simDt = 25/6 ∧
    (∀ (ext : ExternalImpl) (s : SubState),
      (subStepOnce ext s).dist = s.dist + SCROLL_PX_PER_S * simDt) ∧
    (∀ dt : ℚ, 0 < dt → (¬ ∃ z : Int, SCROLL_PX_PER_S * dt = (z : ℚ)) →
      ∀ n : Nat, 1 ≤ n →
        (n : ℚ) * ((pyInt (SCROLL_PX_PER_S * dt) : Int) : ℚ)
          < (n : ℚ) * (SCROLL_PX_PER_S * dt)) := by
  refine ⟨fun ext dt p => scrollPlatform_rect_x ext dt _ p, by decide, by decide,
    fun ext s => rfl, fun dt hdt hnz n hn => ?_⟩
  have hv : 0 < SCROLL_PX_PER_S * dt := by
    have h250 : (0 : ℚ) < SCROLL_PX_PER_S := by unfold SCROLL_PX_PER_S; norm_num
    exact mul_pos h250 hdt
  rw [pyInt_eq_floor _ (le_of_lt hv)]
  have h1 : ((⌊SCROLL_PX_PER_S * dt⌋ : Int) : ℚ) < SCROLL_PX_PER_S * dt :=
    lt_of_le_of_ne (Int.floor_le _) (fun he => hnz ⟨⌊SCROLL_PX_PER_S * dt⌋, he.symm⟩)
  have hnpos : (0 : ℚ) < (n : ℚ) := by
    exact_mod_cast Nat.lt_of_lt_of_le Nat.zero_lt_one hn
  exact mul_lt_mul_of_pos_left h1 hnpos

/-- Witness for C10 at dt = 1/60: one tick shifts a platform by 4 px while
the counter gains 25/6 px, and 4 < 25/6. -/
theorem scroll_quantization_witness :
    (scrollPlatform extW simDt (pyInt (SCROLL_PX_PER_S * simDt)) platStick).rect.x
        = platStick.rect.x - pyInt (SCROLL_PX_PER_S * simDt) ∧
    (1 : ℚ) * ((pyInt (SCROLL_PX_PER_S * simDt) : Int) : ℚ)
        < (1 : ℚ) * (SCROLL_PX_PER_S * simDt) := by
  refine ⟨scroll_quantization.1 extW simDt platStick, ?_⟩
  have h256 : SCROLL_PX_PER_S * simDt = (25/6 : ℚ) := by decide
  have hni : ¬ ∃ z : Int, SCROLL_PX_PER_S * simDt = (z : ℚ) := by
    rintro ⟨z, hz⟩
    rw [h256] at hz
    have hden : (25/6 : ℚ).den = 1 := by rw [hz]; exact Rat.den_intCast z
    exact absurd hden (by decide)
  have h := scroll_quantization.2.2.2.2 simDt (by norm_num [simDt]) hni 1 le_rfl
  simpa using h

/-- C2 (code evaluation at the failing input).  With the draw stream
`extC2` the generator emits a flat pair whose top lane oscillates (the
static lane having been assigned to the bottom lane, created second, which
resets the consecutive-moving counter), and the immediately following flat
pair has both lanes oscillating: the feasibility invariant of the spec is
violated by the generation order. -/
theorem feasibility_slip_eval :
    ((generate_segment_pair extC2 (LevelGen.init extC2 0) 1600).1.1.any
        (fun p => decide (p.platform_type = PlatformType.moving)) = true) ∧
    ((generate_segment_pair extC2 (generate_segment_pair extC2 (LevelGen.init extC2 0) 1600).2
        1780).1.1.all (fun p => decide (p.platform_type = PlatformType.moving)) = true) ∧
    ((generate_segment_pair extC2 (generate_segment_pair extC2 (LevelGen.init extC2 0) 1600).2
        1780).1.1.length = 2) := by
  refine ⟨?_, ?_, ?_⟩ <;> decide

-- Preservation lemmas used by the flip-gating and terminal-state claims.

lemma stickyContact_grav (p : Player) (platforms : List Platform) (p1 : Player)
    (h : stickyContact p platforms = some p1) : p1.grav_dir = p.grav_dir := by
  unfold stickyContact at h
  dsimp only at h
  repeat' split at h
  any_goals exact Option.noConfusion h
  all_goals
    injection h with h1
    subst h1
    unfold stickyRefresh
    split <;> rfl

lemma resolve_grav (p : Player) (platforms : List Platform) :
    ((Player.resolve_collisions_with_platforms p platforms).1).grav_dir = p.grav_dir := by
  unfold Player.resolve_collisions_with_platforms
  dsimp only
  cases hs : stickyContact p platforms with
  | some p1 => exact stickyContact_grav p platforms p1 hs
  | none =>
    cases hf : findContact (playerRectOf p.y) (checkRectOf (playerRectOf p.y))
        p.grav_dir p.vy platforms with
    | some plat => dsimp only; split <;> rfl
    | none => dsimp only; split <;> rfl

lemma update_physics_grav (p : Player) (dt : ℚ) :
    (Player.update_physics p dt).grav_dir = p.grav_dir := rfl

lemma subStepOnce_grav (ext : ExternalImpl) (s : SubState) :
    (subStepOnce ext s).player.grav_dir = s.player.grav_dir := by
  unfold subStepOnce
  dsimp only
  rw [resolve_grav]
  exact update_physics_grav s.player simDt

lemma subStepLoop_grav (ext : ExternalImpl) (n : Nat) :
    ∀ s : SubState, ((subStepLoop ext s n).1).player.grav_dir = s.player.grav_dir := by
  induction n with
  | zero => intro s; rfl
  | succ n ih =>
    intro s
    simp only [subStepLoop]
    split
    · exact subStepOnce_grav ext s
    · rw [ih (subStepOnce ext s), subStepOnce_grav]

lemma try_flip_grav (p : Player) :
    ((Player.try_flip p).2).grav_dir = if p.can_flip then -p.grav_dir else p.grav_dir := by
  unfold Player.try_flip
  split <;> simp_all [Int.mul_neg_one]

/-- Entry of `GGEnv.step` on a valid action after a reset: the body runs. -/
lemma stepEnv_eq_core (ext : ExternalImpl) (e : GGEnv) (lvl : LevelGen) (pl : Player)
    (a : Int) (hl : e.level = some lvl) (hp : e.player = some pl) (ha : 0 ≤ a ∧ a < 2) :
    stepEnv ext e a = some (stepCore ext e lvl pl a) := by
  unfold stepEnv
  rw [if_neg (not_not_intro ha), hl, hp]

lemma stepCore_player (ext : ExternalImpl) (e : GGEnv) (lvl : LevelGen) (pl : Player)
    (a : Int) :
    (stepCore ext e lvl pl a).1.player
      = some ((subStepLoop ext
          ⟨lvl, (if a = 1 ∧ e.alive = true then (Player.try_flip pl).2 else pl),
           e.alive, e.death_cause, e.distance_px, false, false⟩ e.frame_skip).1.player) := rfl

/-- C3 (counterexample).  A session whose actor is airborne (grounded is
false) with elapsed cooldown but a still-running platform-contact grace
buffer: `step(1)` inverts the gravity sign even though the actor was not
grounded, refuting the claimed "flips iff grounded and cooldown zero". -/
theorem flip_gating_cex :
    envBuf.player.map Player.grounded = some false ∧
    envBuf.player.map Player.flip_cooldown = some 0 ∧
    envBuf.alive = true ∧
    envBuf.player.map Player.grav_dir = some 1 ∧
    (stepEnv extW envBuf 1).map (fun x => x.1.player.map Player.grav_dir)
      = some (some (-1)) := by
  refine ⟨rfl, rfl, rfl, rfl, by decide⟩

/-- C3 (amended).  `step(1)` inverts the gravity sign iff, at the start of
the decision, the session is alive and `can_flip` holds, that is the flip
cooldown has elapsed AND (the actor is grounded OR the platform-contact
grace buffer is still positive); in every other case the gravity sign at
the end of the decision equals the sign at its start. -/
theorem flip_gating_amended (ext : ExternalImpl) (e : GGEnv) (lvl : LevelGen) (pl : Player)
    (hl : e.level = some lvl) (hp : e.player = some pl) :
    ∃ e1 res, stepEnv ext e 1 = some (e1, res) ∧
      (e.alive = true ∧ pl.can_flip = true →
        e1.player.map Player.grav_dir = some (-pl.grav_dir)) ∧
      (¬(e.alive = true ∧ pl.can_flip = true) →
        e1.player.map Player.grav_dir = some pl.grav_dir) := by
  have hcore : (stepCore ext e lvl pl 1).1.player.map Player.grav_dir
      = some ((if (1 : Int) = 1 ∧ e.alive = true then (Player.try_flip pl).2 else pl).grav_dir) := by
    rw [stepCore_player]
    exact congrArg some (subStepLoop_grav ext e.frame_skip _)
  refine ⟨(stepCore ext e lvl pl 1).1, (stepCore ext e lvl pl 1).2,
    stepEnv_eq_core ext e lvl pl 1 hl hp (by decide), ?_, ?_⟩
  · intro h
    rw [hcore, if_pos ⟨rfl, h.1⟩, try_flip_grav, if_pos h.2]
  · intro h
    rw [hcore]
    by_cases hc : (1 : Int) = 1 ∧ e.alive = true
    · rw [if_pos hc, try_flip_grav, if_neg (fun hcf => h ⟨hc.2, hcf⟩)]
    · rw [if_neg hc]

/-- Witness for the amended C3: a grounded player with elapsed cooldown in a
live session flips to the opposite gravity sign on `step(1)`. -/
theorem flip_gating_amended_witness :
    envGround.alive = true ∧ plGround.can_flip = true ∧
    (∃ e1 res, stepEnv extW envGround 1 = some (e1, res) ∧
      e1.player.map Player.grav_dir = some (-plGround.grav_dir)) := by
  refine ⟨rfl, by decide, ?_⟩
  obtain ⟨e1, res, hs, h1, h2⟩ := flip_gating_amended extW envGround lvlEmpty plGround rfl rfl
  exact ⟨e1, res, hs, h1 ⟨rfl, by decide⟩⟩

-- Alive-flag and death-cause bookkeeping of the sub-step loop.

lemma subStepOnce_alive_mono (ext : ExternalImpl) (s : SubState) (h : s.alive = false) :
    (subStepOnce ext s).alive = false := by
  unfold subStepOnce
  dsimp only
  repeat' split
  all_goals simp_all

lemma subStepOnce_inv (ext : ExternalImpl) (s : SubState)
    (h : s.alive = true ↔ s.death_cause = none) :
    ((subStepOnce ext s).alive = true ↔ (subStepOnce ext s).death_cause = none) := by
  unfold subStepOnce
  dsimp only
  repeat' split
  all_goals simp_all

lemma subStepLoop_alive_mono (ext : ExternalImpl) (n : Nat) :
    ∀ s : SubState, s.alive = false → ((subStepLoop ext s n).1).alive = false := by
  induction n with
  | zero => intro s h; exact h
  | succ n ih =>
    intro s h
    simp only [subStepLoop]
    split
    · exact subStepOnce_alive_mono ext s h
    · exact ih (subStepOnce ext s) (subStepOnce_alive_mono ext s h)

lemma subStepLoop_inv (ext : ExternalImpl) (n : Nat) :
    ∀ s : SubState, (s.alive = true ↔ s.death_cause = none) →
      (((subStepLoop ext s n).1).alive = true ↔ ((subStepLoop ext s n).1).death_cause = none) := by
  induction n with
  | zero => intro s h; exact h
  | succ n ih =>
    intro s h
    simp only [subStepLoop]
    split
    · exact subStepOnce_inv ext s h
    · exact ih (subStepOnce ext s) (subStepOnce_inv ext s h)

/-- C5 (counterexample).  A session that already terminated out of bounds:
a further `step(0)` still mutates the actor (its vertical position moves
from 254 to 509/2), refuting "once terminated, no further physics mutation
occurs until reset". -/
theorem terminal_freeze_cex :
    envDead.alive = false ∧
    envDead.player.map Player.y = some 254 ∧
    (stepEnv extW envDead 0).map (fun x => x.1.player.map Player.y)
      = some (some (509/2)) ∧
    ((509 : ℚ)/2 ≠ 254) := by
  exact ⟨rfl, rfl, by decide, by decide⟩

/-- C5 (amended).  The session is running iff the alive flag holds, and the
alive flag agrees with the recorded terminal cause: reset establishes
`alive ∧ cause = none`, and every step preserves the agreement
`alive ↔ cause = none` as well as the permanence of termination (a dead
session never comes back alive).  Stepping after termination is not frozen,
though: the Level and Actor keep being mutated (see the counterexample), so
mutual exclusion of the terminal states is what remains of the claim. -/
theorem terminal_invariant_amended :
    (∀ (ext : ExternalImpl) (fs : Nat) (tls : Option ℚ) (seed : Nat),
      (resetEnv ext (GGEnv.init fs tls) seed).1.alive = true ∧
      (resetEnv ext (GGEnv.init fs tls) seed).1.death_cause = none) ∧
    (∀ (ext : ExternalImpl) (e : GGEnv) (lvl : LevelGen) (pl : Player) (a : Int),
      e.level = some lvl → e.player = some pl → 0 ≤ a ∧ a < 2 →
      ∃ e1 res, stepEnv ext e a = some (e1, res) ∧
        ((e.alive = true ↔ e.death_cause = none) →
          (e1.alive = true ↔ e1.death_cause = none)) ∧
        (e.alive = false → e1.alive = false)) := by
  refine ⟨fun ext fs tls seed => ⟨rfl, rfl⟩, fun ext e lvl pl a hl hp ha => ?_⟩
  refine ⟨(stepCore ext e lvl pl a).1, (stepCore ext e lvl pl a).2,
    stepEnv_eq_core ext e lvl pl a hl hp ha, ?_, ?_⟩
  · intro hinv
    exact subStepLoop_inv ext e.frame_skip _ hinv
  · intro hdead
    exact subStepLoop_alive_mono ext e.frame_skip _ hdead

/-- Witness for the amended C5 on a live session one step before a
time-limit death. -/
theorem terminal_invariant_amended_witness :
    ∃ e1 res, stepEnv extW envLimit 0 = some (e1, res) ∧
      (e1.alive = true ↔ e1.death_cause = none) := by
  obtain ⟨e1, res, hs, hinv, hmono⟩ := terminal_invariant_amended.2 extW envLimit lvlEmpty
    plHigh 0 rfl rfl (by decide)
  exact ⟨e1, res, hs, hinv (by decide)⟩

-- Flag bookkeeping of stepCore (definitional projections).

lemma stepCore_term_alive (ext : ExternalImpl) (e : GGEnv) (lvl : LevelGen) (pl : Player)
    (a : Int) :
    (stepCore ext e lvl pl a).2.terminated = !(stepCore ext e lvl pl a).1.alive := rfl

lemma stepCore_trunc (ext : ExternalImpl) (e : GGEnv) (lvl : LevelGen) (pl : Player)
    (a : Int) :
    (stepCore ext e lvl pl a).2.truncated
      = (match e.time_limit_decisions with
         | some lim => decide (((e.timestep + 1 : Nat) : Int) ≥ lim)
         | none => false) := rfl

/-- C6 (counterexample).  A session whose configured decision limit is
reached on the very decision where the actor dies: the step reports
`terminated = true` and `truncated = true` simultaneously, refuting the
claimed mutual exclusivity. -/
theorem end_flags_cex :
    envLimit.alive = true ∧ envLimit.time_limit_decisions = some 5 ∧
    envLimit.timestep = 4 ∧
    (stepEnv extW envLimit 0).map (fun x => (x.2.terminated, x.2.truncated))
      = some (true, true) := by
  exact ⟨rfl, rfl, rfl, by decide⟩

/-- C6 (amended).  `terminated` is true iff the actor is not alive at the
end of the decision (death this step, or a step taken on an already
terminated session); `truncated` is true iff the configured decision limit
is reached by the post-increment decision counter, regardless of the alive
flag; hence both flags are true together when death occurs on the decision
that reaches the limit. -/
theorem end_flags_amended (ext : ExternalImpl) (e : GGEnv) (lvl : LevelGen) (pl : Player)
    (a : Int) (hl : e.level = some lvl) (hp : e.player = some pl) (ha : 0 ≤ a ∧ a < 2) :
    ∃ e1 res, stepEnv ext e a = some (e1, res) ∧
      (res.terminated = true ↔ e1.alive = false) ∧
      (res.truncated = true ↔ ∃ lim, e.time_limit_decisions = some lim ∧
        (e.timestep : Int) + 1 ≥ lim) ∧
      res.timestep = e.timestep + 1 ∧ e1.timestep = e.timestep + 1 := by
  refine ⟨(stepCore ext e lvl pl a).1, (stepCore ext e lvl pl a).2,
    stepEnv_eq_core ext e lvl pl a hl hp ha, ?_, ?_, rfl, rfl⟩
  · rw [stepCore_term_alive]
    cases (stepCore ext e lvl pl a).1.alive <;> simp
  · rw [stepCore_trunc]
    cases htl : e.time_limit_decisions with
    | none => simp
    | some lim =>
      simp only [decide_eq_true_eq, Option.some_inj]
      push_cast
      constructor
      · intro hle; exact ⟨lim, rfl, hle⟩
      · rintro ⟨lim2, hl2, hle⟩
        cases hl2
        exact hle

/-- Witness for the amended C6: on the limit-reaching deadly decision both
flags come out true, consistently with the amended statement. -/
theorem end_flags_amended_witness :
    ∃ e1 res, stepEnv extW envLimit 0 = some (e1, res) ∧
      (res.terminated = true ↔ e1.alive = false) ∧ res.timestep = 5 := by
  obtain ⟨e1, res, hs, hterm, htrunc, hts, hts2⟩ := end_flags_amended extW envLimit lvlEmpty
    plHigh 0 rfl rfl (by decide)
  exact ⟨e1, res, hs, hterm, hts⟩

-- Sub-step batching: full characterization of the frame-skip loop.

lemma subStepOnce_dist (ext : ExternalImpl) (s : SubState) :
    (subStepOnce ext s).dist = s.dist + SCROLL_PX_PER_S * simDt := rfl

lemma scroll_substep_nonneg : (0 : ℚ) ≤ SCROLL_PX_PER_S * simDt := by
  norm_num [SCROLL_PX_PER_S, simDt]

lemma subStepLoop_succ_died (ext : ExternalImpl) (s : SubState) (n : Nat)
    (h : (subStepOnce ext s).died = true) :
    subStepLoop ext s (n + 1) = (subStepOnce ext s, 1) := by
  simp only [subStepLoop, h, if_true]

lemma subStepLoop_succ_alive (ext : ExternalImpl) (s : SubState) (n : Nat)
    (h : (subStepOnce ext s).died = false) :
    subStepLoop ext s (n + 1)
      = ((subStepLoop ext (subStepOnce ext s) n).1,
         (subStepLoop ext (subStepOnce ext s) n).2 + 1) := by
  simp only [subStepLoop, h]
  simp

lemma subStepLoop_spec (ext : ExternalImpl) (n : Nat) :
    ∀ s : SubState, s.died = false →
      (subStepLoop ext s n).2 ≤ n ∧
      (subStepLoop ext s n).1.dist
        = s.dist + ((subStepLoop ext s n).2 : ℚ) * (SCROLL_PX_PER_S * simDt) ∧
      s.dist ≤ (subStepLoop ext s n).1.dist ∧
      ((subStepLoop ext s n).1.died = false → (subStepLoop ext s n).2 = n) ∧
      ((subStepLoop ext s n).1.died = true → 1 ≤ (subStepLoop ext s n).2 ∧
        subStepLoop ext s ((subStepLoop ext s n).2) = subStepLoop ext s n) ∧
      (∀ j, j < (subStepLoop ext s n).2 → (subStepLoop ext s j).1.died = false) := by
  induction n with
  | zero =>
    intro s hd
    refine ⟨Nat.le_refl 0, by simp [subStepLoop], by simp [subStepLoop], fun _ => rfl,
      fun h => ?_, fun j hj => absurd hj (by simp [subStepLoop])⟩
    have : s.died = true := h
    rw [hd] at this
    exact Bool.noConfusion this
  | succ n ih =>
    intro s hd
    by_cases h1 : (subStepOnce ext s).died = true
    · rw [subStepLoop_succ_died ext s n h1]
      refine ⟨Nat.succ_le_succ (Nat.zero_le n), ?_, ?_, ?_, ?_, ?_⟩
      · rw [subStepOnce_dist]
        push_cast
        ring
      · rw [subStepOnce_dist]
        exact le_add_of_nonneg_right scroll_substep_nonneg
      · intro h
        dsimp only at h
        rw [h1] at h
        exact Bool.noConfusion h
      · intro _
        exact ⟨le_rfl, subStepLoop_succ_died ext s 0 h1⟩
      · intro j hj
        interval_cases j
        simpa [subStepLoop] using hd
    · have hd1 : (subStepOnce ext s).died = false := Bool.eq_false_iff.mpr h1
      have hL := subStepLoop_succ_alive ext s n hd1
      obtain ⟨ih1, ih2, ih3, ih4, ih5, ih6⟩ := ih (subStepOnce ext s) hd1
      rw [hL]
      refine ⟨Nat.succ_le_succ ih1, ?_, ?_, ?_, ?_, ?_⟩
      · dsimp only
        rw [ih2, subStepOnce_dist]
        push_cast
        ring
      · dsimp only
        calc s.dist ≤ (subStepOnce ext s).dist := by
              rw [subStepOnce_dist]; exact le_add_of_nonneg_right scroll_substep_nonneg
          _ ≤ (subStepLoop ext (subStepOnce ext s) n).1.dist := ih3
      · intro h
        dsimp only at h
        rw [ih4 h]
      · intro h
        dsimp only at h
        obtain ⟨iha, ihb⟩ := ih5 h
        refine ⟨Nat.le_succ_of_le iha, ?_⟩
        dsimp only
        obtain ⟨k, hk⟩ : ∃ k, (subStepLoop ext (subStepOnce ext s) n).2 = k + 1 :=
          ⟨(subStepLoop ext (subStepOnce ext s) n).2 - 1, by omega⟩
        rw [hk, subStepLoop_succ_alive ext s (k + 1) hd1, ← hk, ihb]
      · intro j hj
        cases j with
        | zero => simpa [subStepLoop] using hd
        | succ j =>
          have hj2 : j < (subStepLoop ext (subStepOnce ext s) n).2 := by
            dsimp only at hj
            omega
          rw [subStepLoop_succ_alive ext s j hd1]
          exact ih6 j hj2

/-- C7.  Sub-step batching and distance accounting: the frame-skip loop of
`GGEnv.step` executes exactly `frame_skip` sub-steps unless a death
condition appears, in which case it stops right after the sub-step on which
death occurred (no earlier sub-step died, the remaining ones are skipped);
the distance counter advances by `SCROLL_PX_PER_S * dt` on every executed
sub-step, the death sub-step included, and never rolls back.  The second
conjunct ties the loop to `GGEnv.step`: the distance stored by a step is
exactly the loop output run from the pre-step distance. -/
theorem substep_batching :
    (∀ (ext : ExternalImpl) (s : SubState) (n : Nat), s.died = false →
      (subStepLoop ext s n).2 ≤ n ∧
      (subStepLoop ext s n).1.dist
        = s.dist + ((subStepLoop ext s n).2 : ℚ) * (SCROLL_PX_PER_S * simDt) ∧
      s.dist ≤ (subStepLoop ext s n).1.dist ∧
      ((subStepLoop ext s n).1.died = false → (subStepLoop ext s n).2 = n) ∧
      ((subStepLoop ext s n).1.died = true → 1 ≤ (subStepLoop ext s n).2 ∧
        subStepLoop ext s ((subStepLoop ext s n).2) = subStepLoop ext s n) ∧
      (∀ j, j < (subStepLoop ext s n).2 → (subStepLoop ext s j).1.died = false)) ∧
    (∀ (ext : ExternalImpl) (e : GGEnv) (lvl : LevelGen) (pl : Player) (a : Int),
      ∃ s0 : SubState, s0.dist = e.distance_px ∧ s0.died = false ∧
        (stepCore ext e lvl pl a).1.distance_px = (subStepLoop ext s0 e.frame_skip).1.dist) :=
  ⟨fun ext s n hd => subStepLoop_spec ext n s hd,
   fun ext e lvl pl a =>
    ⟨⟨lvl, (if a = 1 ∧ e.alive = true then (Player.try_flip pl).2 else pl),
      e.alive, e.death_cause, e.distance_px, false, false⟩, rfl, rfl, rfl⟩⟩

/-- Witness for C7 on a concrete two-sub-step batch without death: both
sub-steps run and the distance advances by exactly two quanta. -/
theorem substep_batching_witness :
    (subStepLoop extW ⟨lvlEmpty, plW, true, none, 0, false, false⟩ 2).2 = 2 ∧
    (subStepLoop extW ⟨lvlEmpty, plW, true, none, 0, false, false⟩ 2).1.dist
      = 0 + ((subStepLoop extW ⟨lvlEmpty, plW, true, none, 0, false, false⟩ 2).2 : ℚ)
          * (SCROLL_PX_PER_S * simDt) := by
  constructor
  · decide
  · exact (substep_batching.1 extW ⟨lvlEmpty, plW, true, none, 0, false, false⟩ 2 rfl).2.1

-- Observation encoder: bounds and sentinel lemmas.

lemma clamp01_nonneg (x : ℚ) : 0 ≤ clamp01 x := by
  unfold clamp01
  split_ifs with h1 h2
  · exact le_rfl
  · norm_num
  · linarith

lemma clamp01_le_one (x : ℚ) : clamp01 x ≤ 1 := by
  unfold clamp01
  split_ifs with h1 h2
  · norm_num
  · exact le_rfl
  · linarith

lemma norm_top_y_bounds (y : ℚ) : 0 ≤ norm_top_y y ∧ norm_top_y y ≤ 1 :=
  ⟨clamp01_nonneg _, clamp01_le_one _⟩

lemma norm_vy_bounds (vy : ℚ) : -1 ≤ norm_vy vy ∧ norm_vy vy ≤ 1 := by
  unfold norm_vy
  have hpos : (0 : ℚ) < max 1 MAX_VY := lt_of_lt_of_le one_pos (le_max_left _ _)
  constructor
  · rw [le_div_iff₀ hpos]
    have := le_max_left (-(max 1 MAX_VY)) (min vy (max 1 MAX_VY))
    linarith
  · rw [div_le_one hpos]
    exact max_le (neg_le_self (le_of_lt hpos)) (min_le_right _ _)

lemma surfStep_fst_none (x : Int) (acc : Option Int × Option Int) (r : Rect) :
    (surfStep x acc r).1 = none ↔ acc.1 = none ∧ ¬ coversAsCeiling r x := by
  unfold surfStep coversAsCeiling
  by_cases h1 : r.left ≤ x ∧ x < r.right
  · by_cases h2 : (r.centery : ℚ) < (HEIGHT : ℚ) * (1/2)
    · rw [if_pos h1, if_pos h2]
      constructor
      · intro h
        exfalso
        revert h
        cases hacc : acc.1 <;> dsimp <;> (try split) <;> simp
      · rintro ⟨-, hn⟩
        exact absurd ⟨h1.1, h1.2, h2⟩ hn
    · rw [if_pos h1, if_neg h2]
      constructor
      · intro h
        exact ⟨h, fun hc => h2 hc.2.2⟩
      · rintro ⟨h, -⟩
        exact h
  · rw [if_neg h1]
    constructor
    · intro h
      exact ⟨h, fun hc => h1 ⟨hc.1, hc.2.1⟩⟩
    · rintro ⟨h, -⟩
      exact h

lemma surfStep_snd_none (x : Int) (acc : Option Int × Option Int) (r : Rect) :
    (surfStep x acc r).2 = none ↔ acc.2 = none ∧ ¬ coversAsFloor r x := by
  unfold surfStep coversAsFloor
  by_cases h1 : r.left ≤ x ∧ x < r.right
  · by_cases h2 : (r.centery : ℚ) < (HEIGHT : ℚ) * (1/2)
    · rw [if_pos h1, if_pos h2]
      constructor
      · intro h
        exact ⟨h, fun hc => hc.2.2 h2⟩
      · rintro ⟨h, -⟩
        exact h
    · rw [if_pos h1, if_neg h2]
      constructor
      · intro h
        exfalso
        revert h
        cases hacc : acc.2 <;> dsimp <;> (try split) <;> simp
      · rintro ⟨-, hn⟩
        exact absurd ⟨h1.1, h1.2, h2⟩ hn
  · rw [if_neg h1]
    constructor
    · intro h
      exact ⟨h, fun hc => h1 ⟨hc.1, hc.2.1⟩⟩
    · rintro ⟨h, -⟩
      exact h

lemma surfaces_foldl_fst_none (x : Int) (l : List Rect) :
    ∀ acc : Option Int × Option Int,
      ((l.foldl (surfStep x) acc).1 = none ↔
        acc.1 = none ∧ ∀ r ∈ l, ¬ coversAsCeiling r x) := by
  induction l with
  | nil => intro acc; simp
  | cons r rest ih =>
    intro acc
    rw [List.foldl_cons, ih (surfStep x acc r), surfStep_fst_none, List.forall_mem_cons]
    tauto

lemma surfaces_foldl_snd_none (x : Int) (l : List Rect) :
    ∀ acc : Option Int × Option Int,
      ((l.foldl (surfStep x) acc).2 = none ↔
        acc.2 = none ∧ ∀ r ∈ l, ¬ coversAsFloor r x) := by
  induction l with
  | nil => intro acc; simp
  | cons r rest ih =>
    intro acc
    rw [List.foldl_cons, ih (surfStep x acc r), surfStep_snd_none, List.forall_mem_cons]
    tauto

lemma surfaces_fst_none_of (rects : List Rect) (x : Int)
    (h : ∀ r ∈ rects, ¬ coversAsCeiling r x) : (surfaces_at_x rects x).1 = none :=
  (surfaces_foldl_fst_none x rects (none, none)).mpr ⟨rfl, h⟩

lemma surfaces_snd_none_of (rects : List Rect) (x : Int)
    (h : ∀ r ∈ rects, ¬ coversAsFloor r x) : (surfaces_at_x rects x).2 = none :=
  (surfaces_foldl_snd_none x rects (none, none)).mpr ⟨rfl, h⟩

lemma spikeFlagUpdate_mem (c : Bool) (h : Int) (hm : h = 0 ∨ h = 1) :
    spikeFlagUpdate c h = 0 ∨ spikeFlagUpdate c h = 1 := by
  unfold spikeFlagUpdate
  split
  · exact Or.inr rfl
  · exact hm

lemma spikePresenceLoop_mem (plats : List Platform) (x w : Int) :
    ∀ (l : List Spike) (ht hb : Int), (ht = 0 ∨ ht = 1) → (hb = 0 ∨ hb = 1) →
      (((spikePresenceLoop plats x w l ht hb).1 = 0 ∨
        (spikePresenceLoop plats x w l ht hb).1 = 1) ∧
       ((spikePresenceLoop plats x w l ht hb).2 = 0 ∨
        (spikePresenceLoop plats x w l ht hb).2 = 1)) := by
  intro l
  induction l with
  | nil => intro ht hb h1 h2; exact ⟨h1, h2⟩
  | cons sp rest ih =>
    intro ht hb h1 h2
    simp only [spikePresenceLoop]
    cases hfp : findPlat plats sp.pid with
    | none => exact ih ht hb h1 h2
    | some plat =>
      dsimp only
      have m1 := spikeFlagUpdate_mem
        (decide (|plat.rect.left + sp.local_x - x| ≤ w) && decide (sp.lane = Lane.top)) ht h1
      have m2 := spikeFlagUpdate_mem
        (decide (|plat.rect.left + sp.local_x - x| ≤ w) && decide (sp.lane = Lane.bot)) hb h2
      split
      · exact ⟨m1, m2⟩
      · exact ih _ _ m1 m2

lemma spike_presence_mem (ext : ExternalImpl) (plats : List Platform) (spikes : List Spike)
    (x : Int) :
    ((spike_presence_near_x ext plats spikes x).1 = 0 ∨
     (spike_presence_near_x ext plats spikes x).1 = 1) ∧
    ((spike_presence_near_x ext plats spikes x).2 = 0 ∨
     (spike_presence_near_x ext plats spikes x).2 = 1) :=
  spikePresenceLoop_mem plats x _ spikes 0 0 (Or.inl rfl) (Or.inl rfl)

lemma probe_features_spec (ext : ExternalImpl) (rects : List Rect) (plats : List Platform)
    (spikes : List Spike) (px : Int) :
    ∃ c f t b : ℚ, probe_features ext rects plats spikes px = [c, f, t, b] ∧
      0 ≤ c ∧ c ≤ 1 ∧ 0 ≤ f ∧ f ≤ 1 ∧ (t = 0 ∨ t = 1) ∧ (b = 0 ∨ b = 1) ∧
      ((∀ r ∈ rects, ¬ coversAsCeiling r px) → c = 0) ∧
      ((∀ r ∈ rects, ¬ coversAsFloor r px) → f = 1) := by
  refine ⟨_, _, _, _, rfl, ?_, ?_, ?_, ?_, ?_, ?_, ?_, ?_⟩
  · cases hs : (surfaces_at_x rects px).1 <;> simp [hs, clamp01_nonneg]
  · cases hs : (surfaces_at_x rects px).1 <;> simp [hs, clamp01_le_one]
  · cases hs : (surfaces_at_x rects px).2 <;> simp [hs, clamp01_nonneg]
  · cases hs : (surfaces_at_x rects px).2 <;> simp [hs, clamp01_le_one]
  · rcases (spike_presence_mem ext plats spikes px).1 with h | h <;>
      [exact Or.inl (by exact_mod_cast congrArg (Int.cast : Int → ℚ) h);
       exact Or.inr (by exact_mod_cast congrArg (Int.cast : Int → ℚ) h)]
  · rcases (spike_presence_mem ext plats spikes px).2 with h | h <;>
      [exact Or.inl (by exact_mod_cast congrArg (Int.cast : Int → ℚ) h);
       exact Or.inr (by exact_mod_cast congrArg (Int.cast : Int → ℚ) h)]
  · intro h
    rw [surfaces_fst_none_of rects px h]
  · intro h
    rw [surfaces_snd_none_of rects px h]

/-- C8.  Observation bounds and sentinels, for every input state (reachable
or not): the 15-entry vector has normalized position in [0,1], normalized
velocity in [-1,1], gravity flag in {-1,+1}, spike flags in {0,1}, surface
fields in [0,1]; at each look-ahead offset the ceiling field is the
sentinel 0 when no top-lane rectangle covers the probe x, and the floor
field is the sentinel 1 when no bottom-lane rectangle covers it. -/
theorem observation_bounds (ext : ExternalImpl) (player : Player) (rects : List Rect)
    (plats : List Platform) (spikes : List Spike) :
    ∃ y vy g c1 f1 t1 b1 c2 f2 t2 b2 c3 f3 t3 b3 : ℚ,
      build_observation_v2 ext player rects plats spikes
        = [y, vy, g, c1, f1, t1, b1, c2, f2, t2, b2, c3, f3, t3, b3] ∧
      (build_observation_v2 ext player rects plats spikes).length = 15 ∧
      0 ≤ y ∧ y ≤ 1 ∧ (-1) ≤ vy ∧ vy ≤ 1 ∧ (g = 1 ∨ g = -1) ∧
      (0 ≤ c1 ∧ c1 ≤ 1) ∧ (0 ≤ f1 ∧ f1 ≤ 1) ∧ (t1 = 0 ∨ t1 = 1) ∧ (b1 = 0 ∨ b1 = 1) ∧
      (0 ≤ c2 ∧ c2 ≤ 1) ∧ (0 ≤ f2 ∧ f2 ≤ 1) ∧ (t2 = 0 ∨ t2 = 1) ∧ (b2 = 0 ∨ b2 = 1) ∧
      (0 ≤ c3 ∧ c3 ≤ 1) ∧ (0 ≤ f3 ∧ f3 ≤ 1) ∧ (t3 = 0 ∨ t3 = 1) ∧ (b3 = 0 ∨ b3 = 1) ∧
      ((∀ r ∈ rects, ¬ coversAsCeiling r (PLAYER_X + 120)) → c1 = 0) ∧
      ((∀ r ∈ rects, ¬ coversAsFloor r (PLAYER_X + 120)) → f1 = 1) ∧
      ((∀ r ∈ rects, ¬ coversAsCeiling r (PLAYER_X + 240)) → c2 = 0) ∧
      ((∀ r ∈ rects, ¬ coversAsFloor r (PLAYER_X + 240)) → f2 = 1) ∧
      ((∀ r ∈ rects, ¬ coversAsCeiling r (PLAYER_X + 360)) → c3 = 0) ∧
      ((∀ r ∈ rects, ¬ coversAsFloor r (PLAYER_X + 360)) → f3 = 1) := by
  obtain ⟨c1, f1, t1, b1, hpf1, hc1, hc1b, hf1, hf1b, ht1, hb1, hs1, hs1f⟩ :=
    probe_features_spec ext rects plats spikes (PLAYER_X + 120)
  obtain ⟨c2, f2, t2, b2, hpf2, hc2, hc2b, hf2, hf2b, ht2, hb2, hs2, hs2f⟩ :=
    probe_features_spec ext rects plats spikes (PLAYER_X + 240)
  obtain ⟨c3, f3, t3, b3, hpf3, hc3, hc3b, hf3, hf3b, ht3, hb3, hs3, hs3f⟩ :=
    probe_features_spec ext rects plats spikes (PLAYER_X + 360)
  have hb : build_observation_v2 ext player rects plats spikes
      = [norm_top_y player.y, norm_vy player.vy,
         (if player.grav_dir > 0 then (1 : ℚ) else -1)] ++
        (probe_features ext rects plats spikes (PLAYER_X + 120) ++
          (probe_features ext rects plats spikes (PLAYER_X + 240) ++
            (probe_features ext rects plats spikes (PLAYER_X + 360) ++ []))) := rfl
  rw [hpf1, hpf2, hpf3] at hb
  simp only [List.cons_append, List.nil_append, List.append_nil] at hb
  refine ⟨norm_top_y player.y, norm_vy player.vy,
    (if player.grav_dir > 0 then (1 : ℚ) else -1), c1, f1, t1, b1, c2, f2, t2, b2,
    c3, f3, t3, b3, hb, by rw [hb]; rfl,
    (norm_top_y_bounds player.y).1, (norm_top_y_bounds player.y).2,
    (norm_vy_bounds player.vy).1, (norm_vy_bounds player.vy).2, ?_,
    ⟨hc1, hc1b⟩, ⟨hf1, hf1b⟩, ht1, hb1, ⟨hc2, hc2b⟩, ⟨hf2, hf2b⟩, ht2, hb2,
    ⟨hc3, hc3b⟩, ⟨hf3, hf3b⟩, ht3, hb3, hs1, hs1f, hs2, hs2f, hs3, hs3f⟩
  split
  · exact Or.inl rfl
  · exact Or.inr rfl

/-- Witness for C8 at a concrete state with no platforms: both sentinels
fire at the first probe and the leading entries are within bounds. -/
theorem observation_bounds_witness :
    ∃ y vy g c1 f1 t1 b1 c2 f2 t2 b2 c3 f3 t3 b3 : ℚ,
      build_observation_v2 extW plW [] [] []
        = [y, vy, g, c1, f1, t1, b1, c2, f2, t2, b2, c3, f3, t3, b3] ∧
      0 ≤ y ∧ y ≤ 1 ∧ (g = 1 ∨ g = -1) ∧ c1 = 0 ∧ f1 = 1 := by
  obtain ⟨y, vy, g, c1, f1, t1, b1, c2, f2, t2, b2, c3, f3, t3, b3, hb, hlen,
    hy1, hy2, hv1, hv2, hg, hcb1, hfb1, ht1, hb1, hcb2, hfb2, ht2, hb2,
    hcb3, hfb3, ht3, hb3, hs1, hs1f, hs2, hs2f, hs3, hs3f⟩ :=
    observation_bounds extW plW [] [] []
  exact ⟨y, vy, g, c1, f1, t1, b1, c2, f2, t2, b2, c3, f3, t3, b3, hb, hy1, hy2, hg,
    hs1 (by simp), hs1f (by simp)⟩

-- Collision resolution: the fresh sweep snaps exactly onto a surface.

lemma stickyContact_none_of (p : Player) (platforms : List Platform)
    (h : p.standing_on_platform = none ∨ p.platform_contact_buffer ≤ 0) :
    stickyContact p platforms = none := by
  unfold stickyContact
  dsimp only
  rcases h with h | h
  · rw [h]
  · cases hst : p.standing_on_platform with
    | none => rfl
    | some pid =>
      dsimp only
      rw [if_neg (not_lt.2 h)]

lemma findContact_isSome_down (pr ck : Rect) (vy : ℚ) (gd : Int) (hgd : gd > 0) :
    ∀ l : List Platform,
      (∃ plat ∈ l, ¬(ck.right ≤ plat.rect.left ∨ ck.left ≥ plat.rect.right) ∧
        (pr.bottom ≥ plat.rect.top ∧ pr.top < plat.rect.top ∧ vy ≥ 0)) →
      ∃ q, findContact pr ck gd vy l = some q := by
  intro l
  induction l with
  | nil =>
    rintro ⟨plat, hmem, -⟩
    exact absurd hmem (List.not_mem_nil plat)
  | cons p rest ih =>
    rintro ⟨plat, hmem, hov, hcond⟩
    simp only [findContact]
    by_cases hskip : ck.right ≤ p.rect.left ∨ ck.left ≥ p.rect.right
    · rw [if_pos hskip]
      rcases List.mem_cons.mp hmem with rfl | hmem2
      · exact absurd hskip hov
      · exact ih ⟨plat, hmem2, hov, hcond⟩
    · rw [if_neg hskip, if_pos hgd]
      by_cases hc : pr.bottom ≥ p.rect.top ∧ pr.top < p.rect.top ∧ vy ≥ 0
      · rw [if_pos hc]
        exact ⟨p, rfl⟩
      · rw [if_neg hc]
        rcases List.mem_cons.mp hmem with rfl | hmem2
        · exact absurd hcond hc
        · exact ih ⟨plat, hmem2, hov, hcond⟩

lemma findContact_isSome_up (pr ck : Rect) (vy : ℚ) (gd : Int) (hgd : ¬(gd > 0)) :
    ∀ l : List Platform,
      (∃ plat ∈ l, ¬(ck.right ≤ plat.rect.left ∨ ck.left ≥ plat.rect.right) ∧
        (pr.top ≤ plat.rect.bottom ∧ pr.bottom > plat.rect.bottom ∧ vy ≤ 0)) →
      ∃ q, findContact pr ck gd vy l = some q := by
  intro l
  induction l with
  | nil =>
    rintro ⟨plat, hmem, -⟩
    exact absurd hmem (List.not_mem_nil plat)
  | cons p rest ih =>
    rintro ⟨plat, hmem, hov, hcond⟩
    simp only [findContact]
    by_cases hskip : ck.right ≤ p.rect.left ∨ ck.left ≥ p.rect.right
    · rw [if_pos hskip]
      rcases List.mem_cons.mp hmem with rfl | hmem2
      · exact absurd hskip hov
      · exact ih ⟨plat, hmem2, hov, hcond⟩
    · rw [if_neg hskip, if_neg hgd]
      by_cases hc : pr.top ≤ p.rect.bottom ∧ pr.bottom > p.rect.bottom ∧ vy ≤ 0
      · rw [if_pos hc]
        exact ⟨p, rfl⟩
      · rw [if_neg hc]
        rcases List.mem_cons.mp hmem with rfl | hmem2
        · exact absurd hcond hc
        · exact ih ⟨plat, hmem2, hov, hcond⟩

lemma resolve_of_contact (p : Player) (platforms : List Platform) (q : Platform)
    (hst : stickyContact p platforms = none)
    (hf : findContact (playerRectOf p.y) (checkRectOf (playerRectOf p.y))
            p.grav_dir p.vy platforms = some q) :
    (p.resolve_collisions_with_platforms platforms).2.1 = true ∧
    (p.resolve_collisions_with_platforms platforms).1.vy = 0 ∧
    (p.grav_dir > 0 →
      (p.resolve_collisions_with_platforms platforms).1.y
        = (q.rect.top : ℚ) - (PLAYER_H : ℚ)) ∧
    (¬(p.grav_dir > 0) →
      (p.resolve_collisions_with_platforms platforms).1.y = (q.rect.bottom : ℚ)) := by
  unfold Player.resolve_collisions_with_platforms
  dsimp only
  rw [hst, hf]
  dsimp only
  refine ⟨rfl, ?_, ?_, ?_⟩
  · split <;> rfl
  · intro hgd
    rw [if_pos hgd]
    dsimp only
    split <;> simp
  · intro hgd
    rw [if_neg hgd]
    dsimp only
    split <;> simp

/-- C4 (counterexample).  With an active contact grace to a remembered
moving platform, a sub-step whose swept rectangle crossed that platform's
top surface ends with the actor held two pixels beyond the surface and its
vertical velocity not zeroed: the resolver result is not "exactly on that
surface with velocity zeroed" as claimed. -/
theorem swept_snap_cex :
    sweptCrossesFloor 268 plStick.y platStick.rect ∧
    plStick.y = 268 + plStick.vy * simDt ∧
    plStick.grav_dir > 0 ∧ plStick.vy ≥ 0 ∧
    ¬((checkRectOf (playerRectOf plStick.y)).right ≤ platStick.rect.left ∨
      (checkRectOf (playerRectOf plStick.y)).left ≥ platStick.rect.right) ∧
    (Player.resolve_collisions_with_platforms plStick [platStick]).2.1 = true ∧
    (Player.resolve_collisions_with_platforms plStick [platStick]).1.y = 270 ∧
    (Player.resolve_collisions_with_platforms plStick [platStick]).1.vy = 120 ∧
    (270 : ℚ) + (PLAYER_H : ℚ) > (platStick.rect.top : ℚ) ∧
    (120 : ℚ) ≠ 0 := by
  refine ⟨⟨by decide, by decide⟩, by decide, by decide, by decide, by decide,
    by decide, by decide, by decide, by decide, by decide⟩

/-- C4 (amended).  When no platform-contact grace is active, a sub-step
whose swept rectangle crosses the opposing surface of some platform that
overlaps the actor's x-band beyond the 2 px tolerance ends with the actor
snapped exactly (in exact rational arithmetic) onto the surface of the
first platform the resolver finds, its leading edge on that surface, never
beyond it, with vertical velocity zeroed and grounded set true.  The
velocity hypotheses are the resolver's own clamp bounds. -/
theorem swept_snap_amended (p : Player) (platforms : List Platform) (prev_y : ℚ)
    (hstick : p.standing_on_platform = none ∨ p.platform_contact_buffer ≤ 0)
    (hint : p.y = prev_y + p.vy * simDt)
    (hy0 : 0 ≤ prev_y)
    (hvlo : -MAX_VY ≤ p.vy) (hvhi : p.vy ≤ MAX_VY) :
    (p.grav_dir > 0 → 0 ≤ p.vy →
      (∃ plat ∈ platforms,
        ¬((checkRectOf (playerRectOf p.y)).right ≤ plat.rect.left ∨
          (checkRectOf (playerRectOf p.y)).left ≥ plat.rect.right) ∧
        sweptCrossesFloor prev_y p.y plat.rect) →
      ∃ q, findContact (playerRectOf p.y) (checkRectOf (playerRectOf p.y))
            p.grav_dir p.vy platforms = some q ∧
        (p.resolve_collisions_with_platforms platforms).1.y + (PLAYER_H : ℚ)
          = (q.rect.top : ℚ) ∧
        (p.resolve_collisions_with_platforms platforms).1.vy = 0 ∧
        (p.resolve_collisions_with_platforms platforms).2.1 = true) ∧
    (¬(p.grav_dir > 0) → p.vy ≤ 0 → 0 ≤ p.y →
      (∃ plat ∈ platforms,
        ¬((checkRectOf (playerRectOf p.y)).right ≤ plat.rect.left ∨
          (checkRectOf (playerRectOf p.y)).left ≥ plat.rect.right) ∧
        sweptCrossesCeiling prev_y p.y plat.rect) →
      ∃ q, findContact (playerRectOf p.y) (checkRectOf (playerRectOf p.y))
            p.grav_dir p.vy platforms = some q ∧
        (p.resolve_collisions_with_platforms platforms).1.y = (q.rect.bottom : ℚ) ∧
        (p.resolve_collisions_with_platforms platforms).1.vy = 0 ∧
        (p.resolve_collisions_with_platforms platforms).2.1 = true) := by
  have hdt : simDt = (1 : ℚ)/60 := rfl
  have hmax : MAX_VY = (1200 : ℚ) := rfl
  constructor
  · intro hgd hvy hex
    obtain ⟨plat, hmem, hov, hsw⟩ := hex
    have hy2 : 0 ≤ p.y := by
      rw [hint]
      have : 0 ≤ p.vy * simDt := mul_nonneg hvy (by rw [hdt]; norm_num)
      linarith
    have hfl : pyInt p.y = ⌊p.y⌋ := pyInt_eq_floor p.y hy2
    obtain ⟨hsw1, hsw2⟩ := hsw
    -- the code's contact condition holds for plat
    have hcond1 : (playerRectOf p.y).bottom ≥ plat.rect.top := by
      show pyInt p.y + PLAYER_H ≥ plat.rect.top
      rw [hfl]
      have hle : (plat.rect.top - PLAYER_H : Int) ≤ ⌊p.y⌋ := by
        rw [Int.le_floor]
        push_cast
        linarith
      omega
    have hcond2 : (playerRectOf p.y).top < plat.rect.top := by
      show pyInt p.y < plat.rect.top
      rw [hfl, Int.floor_lt]
      have h20 : p.vy * simDt ≤ 20 := by
        rw [hdt]
        rw [hmax] at hvhi
        linarith
      rw [hint]
      have hP : (PLAYER_H : ℚ) = 32 := rfl
      rw [hP] at hsw1
      linarith
    obtain ⟨q, hfq⟩ := findContact_isSome_down (playerRectOf p.y)
      (checkRectOf (playerRectOf p.y)) p.vy p.grav_dir hgd platforms
      ⟨plat, hmem, hov, hcond1, hcond2, hvy⟩
    obtain ⟨hg, hv, hyd, hyu⟩ := resolve_of_contact p platforms q
      (stickyContact_none_of p platforms hstick) hfq
    refine ⟨q, hfq, ?_, hv, hg⟩
    rw [hyd hgd]
    ring
  · intro hgd hvy hy2 hex
    obtain ⟨plat, hmem, hov, hsw⟩ := hex
    have hfl : pyInt p.y = ⌊p.y⌋ := pyInt_eq_floor p.y hy2
    obtain ⟨hsw1, hsw2⟩ := hsw
    have hcond1 : (playerRectOf p.y).top ≤ plat.rect.bottom := by
      show pyInt p.y ≤ plat.rect.bottom
      rw [hfl]
      have : (⌊p.y⌋ : ℚ) ≤ (plat.rect.bottom : ℚ) :=
        le_trans (Int.floor_le p.y) hsw2
      exact_mod_cast this
    have hcond2 : (playerRectOf p.y).bottom > plat.rect.bottom := by
      show pyInt p.y + PLAYER_H > plat.rect.bottom
      rw [hfl]
      have h20 : -20 ≤ p.vy * simDt := by
        rw [hdt]
        rw [hmax] at hvlo
        linarith
      have hge : (plat.rect.bottom - 20 : Int) ≤ ⌊p.y⌋ := by
        rw [Int.le_floor]
        push_cast
        rw [hint]
        linarith
      have hP : PLAYER_H = (32 : Int) := rfl
      omega
    obtain ⟨q, hfq⟩ := findContact_isSome_up (playerRectOf p.y)
      (checkRectOf (playerRectOf p.y)) p.vy p.grav_dir hgd platforms
      ⟨plat, hmem, hov, hcond1, hcond2, hvy⟩
    obtain ⟨hg, hv, hyd, hyu⟩ := resolve_of_contact p platforms q
      (stickyContact_none_of p platforms hstick) hfq
    exact ⟨q, hfq, hyu hgd, hv, hg⟩

/-- Witness for the amended C4: a free-falling actor whose swept rectangle
crosses the top of `platStick` is snapped exactly onto it with zero
velocity, grounded. -/
theorem swept_snap_amended_witness :
    ∃ q, findContact (playerRectOf plFall.y) (checkRectOf (playerRectOf plFall.y))
          plFall.grav_dir plFall.vy [platStick] = some q ∧
      (Player.resolve_collisions_with_platforms plFall [platStick]).1.y + (PLAYER_H : ℚ)
        = (q.rect.top : ℚ) ∧
      (Player.resolve_collisions_with_platforms plFall [platStick]).1.vy = 0 ∧
      (Player.resolve_collisions_with_platforms plFall [platStick]).2.1 = true :=
  (swept_snap_amended plFall [platStick] 268 (Or.inl rfl) (by decide) (by decide)
    (by decide) (by decide)).1 (by decide) (by decide)
    ⟨platStick, by simp, by decide, ⟨by decide, by decide⟩⟩

end GG
